import Mathlib

/-!
# Quote–Session–Event reconciliation pipeline: verification development

Shallow embedding, in Lean 4, of the commerce core of the repository
(`AWS_Lambda_Functions/babes-website-*` plus the `shared_commerce` layer):
quote normalization and signing, checkout-session creation, idempotent
webhook ingestion, order materialization and the nightly reconciliation
sweep.  Each definition is translated from the corresponding Python
function, with these standing conventions:

* Machine time (`int(time.time())`, `now_utc_iso()`) is passed explicitly
  as a parameter.
* Calls to external services (the Stripe API, the webhook signature check)
  are passed in as explicit inputs describing their outcome.
* The DynamoDB table is a list of `(PK, SK, payload)` items; `put_item`
  replaces the item with the same key, `get_item` looks the key up.
  `query` over a partition returns the partition's items in ascending
  sort-key order; per the documented DynamoDB semantics, `Limit` bounds
  the number of items *read* (applied before any `FilterExpression`).
* Strings are treated as ASCII (Stripe identifiers, table keys); Python's
  `str.upper` is modelled by the ASCII `Char.toUpper`.
-/

namespace BabesCommerce

/-! ## Small string helpers -/

/-- Python `s[-n:]`: the last `n` characters of `s` (all of `s` when it is
shorter). -/
def lastChars (n : Nat) (s : String) : String :=
  ⟨s.data.drop (s.data.length - n)⟩

/-- Python `str.upper` restricted to ASCII (session identifiers and table
keys in this system are ASCII). -/
def strUpper (s : String) : String :=
  ⟨s.data.map Char.toUpper⟩

/-- Is `c` an ASCII uppercase letter or digit (the class `[A-Z0-9]`)? -/
def isUpperAlnum (c : Char) : Bool :=
  ('A' ≤ c && c ≤ 'Z') || ('0' ≤ c && c ≤ '9')

/-- Python `re.sub(r"[^A-Z0-9]", "", s)`: drop every character outside
`[A-Z0-9]`. -/
def stripNonUpperAlnum (s : String) : String :=
  ⟨s.data.filter isUpperAlnum⟩

/-- Is `c` an ASCII letter or digit? -/
def isAsciiAlnum (c : Char) : Bool :=
  ('a' ≤ c && c ≤ 'z') || ('A' ≤ c && c ≤ 'Z') || ('0' ≤ c && c ≤ '9')

/-! ### String ordering

Python compares `str` values lexicographically by code point, and DynamoDB
orders sort keys bytewise (the same order on the ASCII keys this system
uses).  Lean's built-in `String.ltb` is iterator-based and does not reduce
inside the kernel, so the order is defined directly on the character
lists. -/

/-- Code-point lexicographic comparison (`as ≤ bs`). -/
def lexLe : List Char → List Char → Bool
  | [], _ => true
  | _ :: _, [] => false
  | a :: as, b :: bs =>
    if a.toNat < b.toNat then true
    else if b.toNat < a.toNat then false
    else lexLe as bs

/-- Python's `s <= t` on strings. -/
def strLe (s t : String) : Bool :=
  lexLe s.data t.data

theorem lexLe_total (as : List Char) : ∀ bs, lexLe as bs = true ∨ lexLe bs as = true := by
  induction as with
  | nil => intro bs; left; rfl
  | cons a as ih =>
    intro bs
    cases bs with
    | nil => right; rfl
    | cons b bs =>
      rcases Nat.lt_trichotomy a.toNat b.toNat with h | h | h
      · left; simp [lexLe, h]
      · rcases ih bs with h2 | h2
        · left; simp [lexLe, h, h2]
        · right; simp [lexLe, h, h2]
      · right; simp [lexLe, h]

theorem lexLe_trans (as : List Char) :
    ∀ bs cs, lexLe as bs = true → lexLe bs cs = true → lexLe as cs = true := by
  induction as with
  | nil => intro bs cs _ _; rfl
  | cons a as ih =>
    intro bs cs h₁ h₂
    cases bs with
    | nil => simp [lexLe] at h₁
    | cons b bs =>
      cases cs with
      | nil => simp [lexLe] at h₂
      | cons c cs =>
        by_cases hab : a.toNat < b.toNat
        · by_cases hbc : b.toNat < c.toNat
          · have hac : a.toNat < c.toNat := Nat.lt_trans hab hbc
            simp [lexLe, hac]
          · by_cases hcb : c.toNat < b.toNat
            · simp [lexLe, hbc, hcb] at h₂
            · have : a.toNat < c.toNat := by omega
              simp [lexLe, this]
        · by_cases hba : b.toNat < a.toNat
          · simp [lexLe, hab, hba] at h₁
          · have h₁' : lexLe as bs = true := by simpa [lexLe, hab, hba] using h₁
            by_cases hbc : b.toNat < c.toNat
            · have : a.toNat < c.toNat := by omega
              simp [lexLe, this]
            · by_cases hcb : c.toNat < b.toNat
              · simp [lexLe, hbc, hcb] at h₂
              · have h₂' : lexLe bs cs = true := by simpa [lexLe, hbc, hcb] using h₂
                have hnac : ¬ a.toNat < c.toNat := by omega
                have hnca : ¬ c.toNat < a.toNat := by omega
                simp [lexLe, hnac, hnca, ih bs cs h₁' h₂']

theorem lexLe_antisymm (as : List Char) :
    ∀ bs, lexLe as bs = true → lexLe bs as = true → as = bs := by
  induction as with
  | nil =>
    intro bs _ h₂
    cases bs with
    | nil => rfl
    | cons b bs => simp [lexLe] at h₂
  | cons a as ih =>
    intro bs h₁ h₂
    cases bs with
    | nil => simp [lexLe] at h₁
    | cons b bs =>
      by_cases hab : a.toNat < b.toNat
      · simp [lexLe, hab, Nat.lt_asymm hab] at h₂
      · by_cases hba : b.toNat < a.toNat
        · simp [lexLe, hab, hba] at h₁
        · have hchars : a = b :=
            Char.ext (UInt32.ext (Nat.le_antisymm (Nat.le_of_not_lt hba) (Nat.le_of_not_lt hab)))
          have h₁' : lexLe as bs = true := by simpa [lexLe, hab, hba] using h₁
          have h₂' : lexLe bs as = true := by simpa [lexLe, hab, hba] using h₂
          rw [hchars, ih bs h₁' h₂']

theorem strLe_antisymm (s t : String) (h₁ : strLe s t = true) (h₂ : strLe t s = true) :
    s = t :=
  String.ext (lexLe_antisymm _ _ h₁ h₂)

/-- `strLe` as a relation, for sorting. -/
def skeyLe (s t : String) : Prop :=
  strLe s t = true

instance : DecidableRel skeyLe := fun s t =>
  inferInstanceAs (Decidable (strLe s t = true))

instance : IsTotal String skeyLe := ⟨fun s t => lexLe_total s.data t.data⟩

instance : IsTrans String skeyLe := ⟨fun s t u => lexLe_trans s.data t.data u.data⟩

/-! ## Order numbers (§4.4 step 5)

`_generate_order_number` exists twice in the source, once in the webhook
Lambda (`babes-website-stripe-webhook/lambda_function.py`, lines 231–246)
and once in the nightly sync Lambda
(`babes-website-stripe-nightly-sync/lambda_function.py`, lines 112–122).
The two copies differ: only the webhook copy has the timestamp fallback
for a suffix that is empty after stripping. -/

/-- Webhook `_generate_order_number`.  `nowSec` is `int(time.time())`. -/
def webhookGenerateOrderNumber (sid : String) (nowSec : Nat) : String :=
  if sid = "" then
    "BC-" ++ toString nowSec
  else
    let suffix := stripNonUpperAlnum (strUpper (lastChars 8 sid))
    if suffix = "" then "BC-" ++ lastChars 8 (toString nowSec)
    else "BC-" ++ suffix

/-- Nightly-sync `_generate_order_number`: no fallback when the stripped
suffix is empty. -/
def nightlyGenerateOrderNumber (sid : String) (nowSec : Nat) : String :=
  if sid = "" then
    "BC-" ++ toString nowSec
  else
    "BC-" ++ stripNonUpperAlnum (strUpper (lastChars 8 sid))

/-- The order number exactly as the spec sentence describes it ("the last 8
alphanumeric characters of `sessionId`, uppercased; if degenerate (empty
after stripping non-alphanumerics), fall back to a timestamp-derived
number").  Used only to compare the spec's wording with the source. -/
def specOrderNumber (sid : String) (nowSec : Nat) : String :=
  let alnum := sid.data.filter isAsciiAlnum
  if alnum = [] then
    "BC-" ++ toString nowSec
  else
    "BC-" ++ strUpper ⟨alnum.drop (alnum.length - 8)⟩

/-! ## Cart normalization (`shared_commerce/signing.py`)

`normalize_items` receives the request's `items` array: a JSON list whose
entries are expected to be objects with scalar fields (`sku`, `quantity`,
`price`, `stripePriceId`, …); non-object entries are skipped.  We model an
entry as either a dict of scalar fields (in insertion order, keys unique)
or a non-dict.  `json.dumps` is modelled for this scalar repertoire; the
string escaping handles `"` and `\` (control and non-ASCII characters do
not occur in cart item fields).  Since cleaned entries are flat and
already key-sorted, `sort_keys=True` has no further effect on them. -/

/-- Scalar JSON value (a cart item field value). -/
inductive SVal where
  | null
  | bool (b : Bool)
  | int (n : Int)
  | str (s : String)
  deriving Repr, DecidableEq

/-- One entry of the request's `items` array. -/
inductive CartEntry where
  | dict (kvs : List (String × SVal))
  | nondict
  deriving Repr, DecidableEq

/-- JSON string escaping for `"` and `\`. -/
def escChar (c : Char) : List Char :=
  if c = '"' ∨ c = '\\' then ['\\', c] else [c]

/-- A JSON string literal: quoted, escaped. -/
def quoteStr (s : String) : String :=
  "\"" ++ ⟨(s.data.map escChar).flatten⟩ ++ "\""

/-- `json.dumps` of a scalar. -/
def dumpSVal : SVal → String
  | .null => "null"
  | .bool true => "true"
  | .bool false => "false"
  | .int n => toString n
  | .str s => quoteStr s

/-- `json.dumps` of a flat object, parametrized by the item and key/value
separators (`json.dumps` defaults are `", "`/`": "`; `normalize_items`
passes `(",", ":")` for the final dump). -/
def dumpEntry (isep ksep : String) (kvs : List (String × SVal)) : String :=
  "\x7b" ++ String.intercalate isep
    (kvs.map fun kv => quoteStr kv.1 ++ ksep ++ dumpSVal kv.2) ++ "\x7d"

/-- `json.dumps(entry, sort_keys=True)` with default separators: the sort
key used by `normalize_items`' `cleaned.sort`. -/
def dumpDefault (kvs : List (String × SVal)) : String :=
  dumpEntry ", " ": " kvs

/-- `json.dumps(entry, separators=(",", ":"), sort_keys=True)`. -/
def dumpCompact (kvs : List (String × SVal)) : String :=
  dumpEntry "," ":" kvs

/-- First-match association lookup (`item[key]` on a dict with unique
keys). -/
def lookupVal (kvs : List (String × SVal)) (k : String) : Option SVal :=
  (kvs.find? (fun kv => kv.1 == k)).map (·.2)

/-- `{key: item[key] for key in sorted(item.keys()) if item[key] is not
None}`: sort the keys, drop `None` fields. -/
def cleanItem (kvs : List (String × SVal)) : List (String × SVal) :=
  (List.insertionSort skeyLe (kvs.map Prod.fst).dedup).filterMap fun k =>
    match lookupVal kvs k with
    | some v => if v = .null then none else some (k, v)
    | none => none

/-- The `cleaned` list built by `normalize_items` before sorting. -/
def cleanedOf (items : List CartEntry) : List (List (String × SVal)) :=
  items.filterMap fun e =>
    match e with
    | .dict kvs => some (cleanItem kvs)
    | .nondict => none

/-- The comparison used by `cleaned.sort(key=lambda entry:
json.dumps(entry, sort_keys=True))`. -/
def keyLe (a b : List (String × SVal)) : Prop :=
  strLe (dumpDefault a) (dumpDefault b) = true

instance : DecidableRel keyLe := fun a b =>
  inferInstanceAs (Decidable (strLe (dumpDefault a) (dumpDefault b) = true))

instance : IsTotal (List (String × SVal)) keyLe :=
  ⟨fun a b => lexLe_total (dumpDefault a).data (dumpDefault b).data⟩

instance : IsTrans (List (String × SVal)) keyLe :=
  ⟨fun a b c => lexLe_trans (dumpDefault a).data (dumpDefault b).data (dumpDefault c).data⟩

/-- `normalize_items`: clean each dict entry, sort by the default-separator
dump, emit the compact-separator dump of the sorted list. -/
def normalizeItems (items : List CartEntry) : String :=
  "[" ++ String.intercalate ","
    ((List.insertionSort keyLe (cleanedOf items)).map dumpCompact) ++ "]"

/-- `hash_normalized_cart` applies SHA-256 (an external primitive, here an
arbitrary function `h`) to the normalized string. -/
def hashNormalizedCart (h : String → String) (items : List CartEntry) : String :=
  h (normalizeItems items)

/-! Sorted lists that are permutations of each other are equal, given
antisymmetry of the order on the elements that actually occur (the global
`IsAntisymm` of `List.eq_of_perm_of_sorted` is not available for `keyLe`,
whose ties are resolved by the injectivity of `json.dumps`). -/

theorem cons_append_of_all_eq {α : Type _} (a : α) (u v : List α)
    (h : ∀ x ∈ u, x = a) : a :: (u ++ v) = u ++ a :: v := by
  induction u with
  | nil => rfl
  | cons y u ih =>
    have hy : y = a := h y (List.mem_cons_self _ _)
    subst hy
    have ih' := ih (fun x hx => h x (List.mem_cons_of_mem _ hx))
    simp only [List.cons_append]
    exact congrArg (y :: ·) ih'

theorem eq_of_perm_of_sorted_on {α : Type _} {r : α → α → Prop}
    {l₁ l₂ : List α} (hp : l₁.Perm l₂) (hs₁ : l₁.Sorted r) (hs₂ : l₂.Sorted r)
    (hanti : ∀ a ∈ l₁, ∀ b ∈ l₁, r a b → r b a → a = b) : l₁ = l₂ := by
  revert hanti
  induction' hs₁ with a t₁ h₁ hs₁ IH generalizing l₂
  · intro _
    exact hp.nil_eq
  · intro hanti
    have ha₂ : a ∈ l₂ := hp.subset (List.mem_cons_self _ _)
    rcases List.append_of_mem ha₂ with ⟨u₂, v₂, rfl⟩
    have hp' := (List.perm_cons a).1 (hp.trans List.perm_middle)
    have hs₂' : (u₂ ++ v₂).Sorted r := hs₂.sublist (by simp)
    have hanti' : ∀ x ∈ t₁, ∀ y ∈ t₁, r x y → r y x → x = y := fun x hx y hy =>
      hanti x (List.mem_cons_of_mem _ hx) y (List.mem_cons_of_mem _ hy)
    obtain rfl := IH hp' hs₂' hanti'
    have hall : ∀ x ∈ u₂, x = a := by
      intro x hx
      have hxa : r x a := (List.pairwise_append.1 hs₂).2.2 x hx a (List.mem_cons_self _ _)
      have hax : r a x := h₁ x (List.mem_append_left _ hx)
      exact hanti x (List.mem_cons_of_mem _ (List.mem_append_left _ hx))
        a (List.mem_cons_self _ _) hxa hax
    exact cons_append_of_all_eq a u₂ v₂ hall

/-- **C7.** Two item lists whose cleaned entries are permutations of each
other (in particular: permuted lists with identical field sets and values)
normalize to the same canonical string, hence to the same hash.  The side
condition `hinj` reflects that `json.dumps` is injective on the cleaned
entries — true of the real serializer, and needed because the sort ties are
broken by comparing dumps. -/
theorem C7_normalize_perm_invariant (l₁ l₂ : List CartEntry)
    (hperm : (cleanedOf l₁).Perm (cleanedOf l₂))
    (hinj : ∀ a ∈ cleanedOf l₁, ∀ b ∈ cleanedOf l₁,
      dumpDefault a = dumpDefault b → a = b) :
    normalizeItems l₁ = normalizeItems l₂ ∧
      ∀ h : String → String, hashNormalizedCart h l₁ = hashNormalizedCart h l₂ := by
  have hsort : List.insertionSort keyLe (cleanedOf l₁)
      = List.insertionSort keyLe (cleanedOf l₂) := by
    apply eq_of_perm_of_sorted_on
      ((List.perm_insertionSort _ _).trans (hperm.trans (List.perm_insertionSort _ _).symm))
      (List.sorted_insertionSort _ _) (List.sorted_insertionSort _ _)
    intro a ha b hb hab hba
    have ha' : a ∈ cleanedOf l₁ := (List.perm_insertionSort keyLe _).subset ha
    have hb' : b ∈ cleanedOf l₁ := (List.perm_insertionSort keyLe _).subset hb
    exact hinj a ha' b hb' (strLe_antisymm _ _ hab hba)
  have hnorm : normalizeItems l₁ = normalizeItems l₂ := by
    unfold normalizeItems
    rw [hsort]
  exact ⟨hnorm, fun h => congrArg h hnorm⟩

/-- Concrete instance of `C7_normalize_perm_invariant`: the two-item cart
`[{sku:"A",qty:2}, {price:10, note:null}]` against its permutation with the
first item's keys reordered and the null field dropped. -/
theorem C7_normalize_perm_invariant_witness :
    normalizeItems
        [.dict [("sku", .str "A"), ("qty", .int 2)],
         .dict [("price", .int 10), ("note", .null)]]
      = normalizeItems
        [.dict [("price", .int 10)],
         .dict [("qty", .int 2), ("sku", .str "A")]] :=
  (C7_normalize_perm_invariant _ _ (by decide) (by decide)).1

/-! ## The commerce DynamoDB table

One table holds every record type, keyed by `(PK, SK)` (`shared_commerce/
storage.py`).  `put_item` replaces the item with the same key; `get_item`
is a point lookup.  Items are typed by payload; reading an attribute a
payload does not carry (e.g. `pricingSummary` on a pointer record) yields
`None`, exactly as `dict.get` does. -/

/-- Python `str.lower` restricted to ASCII. -/
def strLower (s : String) : String :=
  ⟨s.data.map Char.toLower⟩

/-- A normalized Stripe line item, as produced by
`_fetch_line_items_from_stripe` (webhook) / `_fetch_line_items` (sync). -/
structure LineItem where
  name : String
  quantity : Int
  unitPrice : Int
  currency : String
  amountTotal : Int
  amountSubtotal : Int
  stripePriceId : Option String
  stripeProductId : Option String
  sku : Option String
  collectionId : Option String
  variantId : Option String
  color : Option String
  deriving Repr, DecidableEq

/-- One entry of a `pricingSummary.discounts` list: `none` for a non-dict
entry (skipped by the summation), `some n` for a dict whose
`discountCents` resolves to `n` (`0` when the key is absent). -/
abbrev DiscountEntry := Option Int

/-- A stored `pricingSummary` attribute: scalar fields plus the optional
`discounts` list that `_create_order_snapshot` inspects. -/
structure PricingPayload where
  fields : List (String × SVal)
  discounts : Option (List DiscountEntry) := none
  deriving Repr, DecidableEq

/-- Python truthiness of the `pricing_summary` dict. -/
def PricingPayload.isEmpty (p : PricingPayload) : Bool :=
  p.fields.isEmpty && p.discounts.isNone

/-- A shipping address block on an order. -/
structure AddressRec where
  name : Option String := none
  line1 : Option String := none
  line2 : Option String := none
  city : Option String := none
  state : Option String := none
  postalCode : Option String := none
  country : Option String := none
  deriving Repr, DecidableEq

/-- The bounded summary `_summarize_event_object` stores on an Event
Record (keys with a `None` value are dropped, which the `Option` fields
encode). -/
structure StripeSummary where
  status : Option String := none
  paymentStatus : Option String := none
  amountTotal : Option Int := none
  amountSubtotal : Option Int := none
  currency : Option String := none
  customer : Option String := none
  customerEmail : Option String := none
  paymentIntent : Option String := none
  metadata : Option (List (String × String)) := none
  deriving Repr, DecidableEq

/-- The Event Record (`PK = EVENT#eventId`, `SK = METADATA`). -/
structure EventRec where
  eventType : String
  processedAt : String
  sessionId : Option String
  status : String
  quoteSignature : Option String
  expiresAt : Nat
  stripeSummary : StripeSummary
  signatureVerified : Bool
  orderCreated : Bool
  orderNumber : Option String
  deriving Repr, DecidableEq

/-- The Order Snapshot (`PK = USER#userId`, `SK = ORDER#ts#orderId`). -/
structure OrderRec where
  orderId : String
  orderNumber : String
  userId : String
  status : String
  amount : Int
  amountSubtotal : Int
  currency : String
  items : List LineItem
  itemCount : Nat
  createdAt : String
  updatedAt : String
  completedAt : String
  stripeSessionId : String
  stripePaymentIntentId : Option String
  stripeCustomerId : Option String
  stripePaymentStatus : Option String
  customerEmail : Option String
  shippingAddress : Option AddressRec := none
  customerPhone : Option String := none
  quoteSignature : Option String := none
  pricingSummary : Option PricingPayload := none
  totalDiscountCents : Option Int := none
  discounts : Option (List DiscountEntry) := none
  metadata : List (String × String) := []
  syncedAt : Option String := none
  source : Option String := none
  expiresAt : Option Nat := none
  deriving Repr, DecidableEq

/-- The quote cache record written by `babes-website-cart-quote`
(`PK = CART#normalizedHash`, `SK = QUOTE#createdAt#uuid`). -/
structure QuoteCacheRec where
  quoteSignature : String
  normalizedHash : String
  createdAt : String
  requestItems : List CartEntry
  pricingSummary : PricingPayload
  expiresAt : Nat
  deriving Repr, DecidableEq

/-- The quote pointer record (`PK = QUOTE#signature`, `SK = METADATA`). -/
structure QuotePtrRec where
  normalizedHash : String
  quoteCreatedAt : String
  expiresAt : Int
  deriving Repr, DecidableEq

/-- The session record (`PK = QUOTE#signature`, `SK = SESSION#sessionId`);
processor-mirrored attributes set later by `update_session_status` live in
`attrs`. -/
structure SessionRec where
  status : String
  createdAt : String
  checkoutUrl : String
  stripeSessionId : Option String
  stripeCheckoutUrl : Option String
  stripeStatus : Option String
  expiresAt : Int
  updatedAt : Option String := none
  attrs : List (String × SVal) := []
  deriving Repr, DecidableEq

/-- The session pointer record (`PK = SESSION#sessionId`, `SK = METADATA`). -/
structure SessPtrRec where
  quoteSignature : String
  status : String
  createdAt : String
  expiresAt : Int
  stripeSessionId : Option String
  stripeCheckoutUrl : Option String
  stripeStatus : Option String
  updatedAt : Option String := none
  attrs : List (String × SVal) := []
  deriving Repr, DecidableEq

/-- The sync-state record (`PK = SYSTEM`, `SK = STRIPE_ORDER_SYNC`). -/
structure SyncRec where
  lastSyncStartedAt : String
  lastSyncCompletedAt : String
  lastSyncProcessed : Nat
  lastSyncCreated : Nat
  lastSyncSkipped : Nat
  lastSyncErrors : Nat
  lastLookbackStart : Nat
  lastLookbackEnd : Nat
  updatedAt : String
  deriving Repr, DecidableEq

/-- Typed item payloads. -/
inductive ItemData where
  | event (e : EventRec)
  | order (o : OrderRec)
  | quoteCache (q : QuoteCacheRec)
  | quotePointer (p : QuotePtrRec)
  | session (s : SessionRec)
  | sessionPointer (p : SessPtrRec)
  | syncState (s : SyncRec)
  deriving Repr, DecidableEq

/-- One DynamoDB item. -/
structure Item where
  pk : String
  sk : String
  data : ItemData
  deriving Repr, DecidableEq

/-- The commerce table. -/
abbrev Table := List Item

/-- `table.put_item`: replace the item with the same key. -/
def putItem (t : Table) (it : Item) : Table :=
  it :: t.filter fun j => !(j.pk == it.pk && j.sk == it.sk)

/-- `table.get_item`: point lookup. -/
def getItem (t : Table) (pk sk : String) : Option Item :=
  t.find? fun j => j.pk == pk && j.sk == sk

/-- `item.get("pricingSummary")` on an arbitrary item. -/
def ItemData.pricingSummaryAttr : ItemData → Option PricingPayload
  | .quoteCache q => some q.pricingSummary
  | _ => none

/-- Number of order items stored for a given Stripe session (over the whole
table, any owner). -/
def ordersForSession (t : Table) (sid : String) : Nat :=
  (t.filter fun it =>
    match it.data with
    | .order o => o.stripeSessionId == sid
    | _ => false).length

/-! ## Webhook order materialization
(`babes-website-stripe-webhook/lambda_function.py`, `_create_order_snapshot`,
lines 320–470, with `_get_quote_data` lines 301–317) -/

/-- Python-falsy handling for optional strings: an empty string behaves
like a missing value in the `x or y` / `if not x` idioms. -/
def pyStrOpt (o : Option String) : Option String :=
  o.bind fun s => if s = "" then none else some s

/-- `a or b` for optional strings (keeping `b` even when falsy). -/
def pyOrStr (a b : Option String) : Option String :=
  match pyStrOpt a with
  | some s => some s
  | none => b

/-- `customer_details` of a Stripe checkout-session object. -/
structure CustomerDetails where
  email : Option String := none
  phone : Option String := none
  deriving Repr, DecidableEq

/-- `shipping_details.address` of a Stripe checkout-session object. -/
structure ShipAddr where
  line1 : Option String := none
  line2 : Option String := none
  city : Option String := none
  state : Option String := none
  postalCode : Option String := none
  country : Option String := none
  deriving Repr, DecidableEq

/-- `shipping_details` of a Stripe checkout-session object. -/
structure ShipDetails where
  name : Option String := none
  address : Option ShipAddr := none
  deriving Repr, DecidableEq

/-- The fields of the Stripe event's `data.object` (a checkout session)
that the webhook handler reads. -/
structure DataObject where
  id : Option String := none
  sessionId : Option String := none
  status : Option String := none
  paymentStatus : Option String := none
  amountTotal : Option Int := none
  amountSubtotal : Option Int := none
  currency : Option String := none
  customer : Option String := none
  customerEmail : Option String := none
  customerPhone : Option String := none
  paymentIntent : Option String := none
  customerDetails : Option CustomerDetails := none
  shippingDetails : Option ShipDetails := none
  metadata : List (String × String) := []
  url : Option String := none
  deriving Repr, DecidableEq

/-- A character the sanitizer keeps: `[a-zA-Z0-9@.\-_]`. -/
def isUserIdChar (c : Char) : Bool :=
  isAsciiAlnum c || c == '@' || c == '.' || c == '-' || c == '_'

/-- `re.sub(r"[^a-zA-Z0-9@.\-_]", "", str(user_id))[:256]`. -/
def sanitizeUserId (s : String) : String :=
  ⟨(s.data.filter isUserIdChar).take 256⟩

/-- `metadata.get(k)`. -/
def metaGet (metadata : List (String × String)) (k : String) : Option String :=
  (metadata.find? fun kv => kv.1 == k).map (·.2)

/-- The customer email resolved by the webhook:
`customer_details.get("email") or data_object.get("customer_email")`
(collapsing falsy values, which every later use also treats as missing). -/
def resolveCustomerEmail (d : DataObject) : Option String :=
  pyStrOpt (pyOrStr (d.customerDetails.bind (·.email)) d.customerEmail)

/-- The raw owner identifier before sanitization:
`metadata.get("userId") or metadata.get("user_id")`, falling back to the
customer email. -/
def resolveRawOwner (d : DataObject) (metadata : List (String × String)) :
    Option String :=
  match pyStrOpt (pyOrStr (metaGet metadata "userId") (metaGet metadata "user_id")) with
  | some u => some u
  | none => resolveCustomerEmail d

/-- `_get_quote_data`: point lookup of `(QUOTE#signature, CACHE)`. -/
def getQuoteData (quoteSignature : String) (t : Table) : Option Item :=
  getItem t ("QUOTE#" ++ quoteSignature) "CACHE"

/-- The quote enrichment resolved by `_create_order_snapshot`: the looked-up
item's `pricingSummary`, kept only when (Python-)truthy. -/
def webhookQuotePricing (quoteSignature : Option String) (t : Table) :
    Option PricingPayload :=
  match pyStrOpt quoteSignature with
  | none => none
  | some qs =>
    match (getQuoteData qs t).bind (fun it => it.data.pricingSummaryAttr) with
    | none => none
    | some p => if p.isEmpty then none else some p

/-- The metadata keys excluded from the order's stored metadata. -/
def internalMetaKeys : List String :=
  ["quoteSignature", "quote_signature", "normalizedHash", "normalized_hash",
   "userId", "user_id"]

/-- The `order_item` dict `_create_order_snapshot` assembles, given the
already-sanitized owner `userId`. -/
def webhookOrderRec (sid : String) (d : DataObject)
    (metadata : List (String × String)) (quoteSignature : Option String)
    (processedAt : String) (t : Table) (lineItems : List LineItem)
    (nowSec ttlDays : Nat) (userId : String) : OrderRec :=
  let psOpt := webhookQuotePricing quoteSignature t
  { orderId := sid
    orderNumber := webhookGenerateOrderNumber sid nowSec
    userId := userId
    status := "completed"
    amount := d.amountTotal.getD 0
    amountSubtotal := d.amountSubtotal.getD 0
    currency := strLower ((pyStrOpt d.currency).getD "usd")
    items := lineItems
    itemCount := lineItems.length
    createdAt := processedAt
    updatedAt := processedAt
    completedAt := processedAt
    stripeSessionId := sid
    stripePaymentIntentId := d.paymentIntent
    stripeCustomerId := d.customer
    stripePaymentStatus := d.paymentStatus
    customerEmail := resolveCustomerEmail d
    shippingAddress := d.shippingDetails.map fun sd =>
      { name := sd.name
        line1 := sd.address.bind (·.line1)
        line2 := sd.address.bind (·.line2)
        city := sd.address.bind (·.city)
        state := sd.address.bind (·.state)
        postalCode := sd.address.bind (·.postalCode)
        country := sd.address.bind (·.country) }
    customerPhone :=
      (pyStrOpt (pyOrStr (d.customerDetails.bind (·.phone)) d.customerPhone)).map
        fun s => ⟨s.data.take 20⟩
    quoteSignature := pyStrOpt quoteSignature
    pricingSummary := psOpt
    totalDiscountCents :=
      psOpt.bind fun ps =>
        ps.discounts.bind fun ds =>
          let total := (ds.filterMap id).foldl (· + ·) 0
          if total > 0 then some total else none
    discounts :=
      psOpt.bind fun ps =>
        ps.discounts.bind fun ds =>
          let total := (ds.filterMap id).foldl (· + ·) 0
          if total > 0 then some ds else none
    metadata := metadata.filter fun kv => !(internalMetaKeys.contains kv.1)
    expiresAt := if ttlDays > 0 then some (nowSec + ttlDays * 86400) else none }

/-- The table item the webhook writes
(`PK = USER#userId`, `SK = ORDER#now#sessionId`). -/
def webhookOrderItem (sid : String) (d : DataObject)
    (metadata : List (String × String)) (quoteSignature : Option String)
    (processedAt : String) (t : Table) (lineItems : List LineItem)
    (nowSec ttlDays : Nat) (userId : String) : Item :=
  { pk := "USER#" ++ userId
    sk := "ORDER#" ++ toString nowSec ++ "#" ++ sid
    data := .order (webhookOrderRec sid d metadata quoteSignature processedAt t
      lineItems nowSec ttlDays userId) }

/-- `_create_order_snapshot`.  External-call outcomes are explicit inputs:
`lineItems` is the result of `_fetch_line_items_from_stripe`, `nowSec` is
`int(time.time())`, `ttlDays` is the `ORDER_TTL_DAYS` environment value and
`putFails` injects a failure of the final `table.put_item` (caught in the
source, returning `None`).  Returns the created order (or `none` on any
abort) and the resulting table. -/
def createOrderSnapshotWebhook (sid : String) (d : DataObject)
    (metadata : List (String × String)) (quoteSignature : Option String)
    (processedAt : String) (t : Table) (lineItems : List LineItem)
    (nowSec : Nat) (ttlDays : Nat) (putFails : Bool) :
    Option OrderRec × Table :=
  match resolveRawOwner d metadata with
  | none => (none, t)
  | some rawOwner =>
    let userId := sanitizeUserId rawOwner
    if userId = "" then (none, t)
    else if putFails then (none, t)
    else
      (some (webhookOrderRec sid d metadata quoteSignature processedAt t lineItems
        nowSec ttlDays userId),
       putItem t (webhookOrderItem sid d metadata quoteSignature processedAt t
        lineItems nowSec ttlDays userId))

/-! ## Reconciliation sweep
(`babes-website-stripe-nightly-sync/lambda_function.py`)

The DynamoDB `query` in `_order_exists_for_session` passes
`KeyConditionExpression` `PK = USER#uid AND begins_with(SK, "ORDER#")`,
`FilterExpression stripeSessionId = sid` and `Limit=1`.  Per the DynamoDB
semantics, the key condition selects the partition's matching items in
ascending sort-key order, `Limit` caps the number of items *read*, and the
filter is applied to those read items afterwards — so only the owner's
first `ORDER#` item is ever inspected.  The model reproduces this.  (The
`except` branch returning `True` and `_order_exists_by_event`, which is
never called, are not modelled; the store itself is reliable here.) -/

/-- `begins_with` on the chars of a sort key. -/
def charsBeginWith : List Char → List Char → Bool
  | [], _ => true
  | _ :: _, [] => false
  | a :: ps, b :: ss => a == b && charsBeginWith ps ss

/-- Does `s` begin with `p`? -/
def beginsWith (s p : String) : Bool :=
  charsBeginWith p.data s.data

/-- Sort-key order on items (DynamoDB partitions are SK-ordered). -/
def itemSkLe (a b : Item) : Prop :=
  strLe a.sk b.sk = true

instance : DecidableRel itemSkLe := fun a b =>
  inferInstanceAs (Decidable (strLe a.sk b.sk = true))

instance : IsTotal Item itemSkLe := ⟨fun a b => lexLe_total a.sk.data b.sk.data⟩

instance : IsTrans Item itemSkLe := ⟨fun a b c => lexLe_trans a.sk.data b.sk.data c.sk.data⟩

/-- The key condition `PK = USER#uid AND begins_with(SK, "ORDER#")`. -/
def orderPartPred (uid : String) (it : Item) : Bool :=
  it.pk == "USER#" ++ uid && beginsWith it.sk "ORDER#"

/-- The owner's `ORDER#` partition slice, in ascending sort-key order. -/
def userOrderItems (t : Table) (uid : String) : List Item :=
  List.insertionSort itemSkLe (t.filter (orderPartPred uid))

/-- Does `it` carry an order for the Stripe session `sid`
(the `FilterExpression`)? -/
def matchesSession (sid : String) (it : Item) : Bool :=
  match it.data with
  | .order o => o.stripeSessionId == sid
  | _ => false

/-- `_order_exists_for_session`: read at most `Limit=1` items of the
partition, then filter. -/
def orderExistsForSession (t : Table) (uid sid : String) : Bool :=
  !((userOrderItems t uid).take 1 |>.filter (matchesSession sid)).isEmpty

/-- A completed checkout session as returned by the processor's
list/retrieve API (the fields the sweep reads). -/
structure StripeSession where
  id : String
  created : Option Nat := none
  amountTotal : Option Int := none
  amountSubtotal : Option Int := none
  currency : Option String := none
  customer : Option String := none
  customerEmail : Option String := none
  paymentIntent : Option String := none
  paymentStatus : Option String := none
  customerDetails : Option CustomerDetails := none
  shippingDetails : Option ShipDetails := none
  metadata : List (String × String) := []
  deriving Repr, DecidableEq

/-- Stand-in for `datetime.fromtimestamp(ts, timezone.utc).isoformat()`
(an injective rendering of the epoch second; no claim inspects its
format). -/
def tsIso (n : Nat) : String :=
  toString n

/-- The sweep's owner resolution (note: unlike the webhook path, the
identifier is *not* sanitized here). -/
def sweepRawOwner (s : StripeSession) : Option String :=
  match pyStrOpt (pyOrStr (metaGet s.metadata "userId") (metaGet s.metadata "user_id")) with
  | some u => some u
  | none => pyStrOpt (pyOrStr (s.customerDetails.bind (·.email)) s.customerEmail)

/-- The order record the sweep builds for session `s` under owner
`userId`. -/
def sweepOrderRec (s : StripeSession) (userId : String) (processedAt : String)
    (lineItemsOf : String → List LineItem) (nowSec ttlDays : Nat) : OrderRec :=
  { orderId := s.id
    orderNumber := nightlyGenerateOrderNumber s.id nowSec
    userId := userId
    status := "completed"
    amount := s.amountTotal.getD 0
    amountSubtotal := s.amountSubtotal.getD 0
    currency := strLower ((pyStrOpt s.currency).getD "usd")
    items := lineItemsOf s.id
    itemCount := (lineItemsOf s.id).length
    createdAt := tsIso (s.created.getD nowSec)
    updatedAt := processedAt
    completedAt := processedAt
    syncedAt := some processedAt
    source := some "nightly_sync"
    stripeSessionId := s.id
    stripePaymentIntentId := s.paymentIntent
    stripeCustomerId := s.customer
    stripePaymentStatus := s.paymentStatus
    customerEmail :=
      pyStrOpt (pyOrStr (s.customerDetails.bind (·.email)) s.customerEmail)
    customerPhone := pyStrOpt (s.customerDetails.bind (·.phone))
    shippingAddress := s.shippingDetails.map fun sd =>
      { name := sd.name
        line1 := sd.address.bind (·.line1)
        line2 := sd.address.bind (·.line2)
        city := sd.address.bind (·.city)
        state := sd.address.bind (·.state)
        postalCode := sd.address.bind (·.postalCode)
        country := sd.address.bind (·.country) }
    quoteSignature :=
      pyStrOpt (pyOrStr (metaGet s.metadata "quoteSignature")
        (metaGet s.metadata "quote_signature"))
    expiresAt := if ttlDays > 0 then some (nowSec + ttlDays * 86400) else none }

/-- The table item the sweep writes for session `s` under owner `userId`
(`PK = USER#userId`, `SK = ORDER#created#sessionId`). -/
def sweepOrderItem (s : StripeSession) (userId : String) (processedAt : String)
    (lineItemsOf : String → List LineItem) (nowSec ttlDays : Nat) : Item :=
  { pk := "USER#" ++ userId
    sk := "ORDER#" ++ toString (s.created.getD nowSec) ++ "#" ++ s.id
    data := .order (sweepOrderRec s userId processedAt lineItemsOf nowSec ttlDays) }

/-- `_create_order_snapshot_from_session`.  Returns
`((success, orderNumber), table)`. -/
def createOrderSnapshotFromSession (s : StripeSession) (t : Table)
    (processedAt : String) (dryRun : Bool) (lineItemsOf : String → List LineItem)
    (nowSec : Nat) (ttlDays : Nat) : (Bool × Option String) × Table :=
  match sweepRawOwner s with
  | none => ((false, none), t)
  | some userId =>
    if orderExistsForSession t userId s.id then ((false, none), t)
    else
      let orderNumber := nightlyGenerateOrderNumber s.id nowSec
      if dryRun then ((true, some orderNumber), t)
      else
        ((true, some orderNumber),
         putItem t (sweepOrderItem s userId processedAt lineItemsOf nowSec ttlDays))

/-- Accumulated counters of one sweep run. -/
structure SyncOutcome where
  processed : Nat
  created : Nat
  skipped : Nat
  errors : Nat
  createdOrders : List String
  deriving Repr, DecidableEq

/-- The `for session in sessions.auto_paging_iter()` loop of `_run_sync`
(`maxSessions` break, per-session materialization, counter updates).
Errors are not injected, so the `except` counter stays `0`. -/
def runSyncLoop (sessions : List StripeSession) (t : Table)
    (processed created skipped : Nat) (createdOrders : List String)
    (maxSessions : Nat) (dryRun : Bool) (lineItemsOf : String → List LineItem)
    (nowSec ttlDays : Nat) (startedAt : String) :
    (Nat × Nat × Nat × List String) × Table :=
  match sessions with
  | [] => ((processed, created, skipped, createdOrders), t)
  | s :: rest =>
    if processed ≥ maxSessions then ((processed, created, skipped, createdOrders), t)
    else
      let ((success, orderNumber), t') :=
        createOrderSnapshotFromSession s t startedAt dryRun lineItemsOf nowSec ttlDays
      match success, orderNumber with
      | true, some onum =>
        runSyncLoop rest t' (processed + 1) (created + 1) skipped
          (createdOrders ++ [onum]) maxSessions dryRun lineItemsOf nowSec ttlDays startedAt
      | _, _ =>
        runSyncLoop rest t' (processed + 1) created (skipped + 1)
          createdOrders maxSessions dryRun lineItemsOf nowSec ttlDays startedAt

/-- `_update_sync_state` (skipped on dry runs; the `except` is not
injected). -/
def updateSyncState (t : Table) (startedAt completedAt : String)
    (processed created skipped errors : Nat) (lookbackStart lookbackEnd : Nat)
    (dryRun : Bool) : Table :=
  if dryRun then t
  else
    putItem t
      { pk := "SYSTEM"
        sk := "STRIPE_ORDER_SYNC"
        data := .syncState
          { lastSyncStartedAt := startedAt
            lastSyncCompletedAt := completedAt
            lastSyncProcessed := processed
            lastSyncCreated := created
            lastSyncSkipped := skipped
            lastSyncErrors := errors
            lastLookbackStart := lookbackStart
            lastLookbackEnd := lookbackEnd
            updatedAt := completedAt } }

/-- `_run_sync`, given the processor's enumeration `sessions` of checkout
sessions completed in the lookback window (the `stripe.checkout.Session.list`
call; an enumeration failure is not injected, matching the "no processor
errors" scenarios). -/
def runSync (t : Table) (sessions : List StripeSession)
    (lookbackHours maxSessions : Nat) (dryRun : Bool)
    (lineItemsOf : String → List LineItem) (nowSec ttlDays : Nat)
    (startedAt completedAt : String) : SyncOutcome × Table :=
  let ((processed, created, skipped, createdOrders), t') :=
    runSyncLoop sessions t 0 0 0 [] maxSessions dryRun lineItemsOf nowSec ttlDays startedAt
  let outcome : SyncOutcome :=
    { processed := processed, created := created, skipped := skipped
      errors := 0, createdOrders := createdOrders }
  (outcome,
   updateSyncState t' startedAt completedAt processed created skipped 0
     (nowSec - lookbackHours * 3600) nowSec dryRun)

/-! ## Store lemmas for the sweep -/

theorem user_pk_inj {a b : String} (h : "USER#" ++ a = "USER#" ++ b) : a = b := by
  have h2 := congrArg String.data h
  rw [String.data_append, String.data_append] at h2
  exact String.ext (List.append_cancel_left h2)

theorem sys_ne_user (uid : String) : ("SYSTEM" : String) ≠ "USER#" ++ uid := by
  intro h
  have h2 := congrArg String.data h
  rw [String.data_append] at h2
  simp at h2

theorem charsBeginWith_append (p r : List Char) : charsBeginWith p (p ++ r) = true := by
  induction p with
  | nil => rfl
  | cons a p ih => simp [charsBeginWith, ih]

theorem beginsWith_append (p r : String) : beginsWith (p ++ r) p = true := by
  unfold beginsWith
  rw [String.data_append]
  exact charsBeginWith_append p.data r.data

/-- Writing an item of a different partition leaves an owner's `ORDER#`
slice unchanged. -/
theorem userOrderItems_putItem_ne (t : Table) (it : Item) (uid : String)
    (hpk : it.pk ≠ "USER#" ++ uid) :
    userOrderItems (putItem t it) uid = userOrderItems t uid := by
  unfold userOrderItems putItem
  congr 1
  have hit : orderPartPred uid it = false := by
    unfold orderPartPred
    have hb : (it.pk == "USER#" ++ uid) = false := beq_eq_false_iff_ne.mpr hpk
    simp [hb]
  rw [List.filter_cons_of_neg (by simp [hit]), List.filter_filter]
  apply List.filter_congr
  intro j _
  cases hpj : orderPartPred uid j with
  | false => simp
  | true =>
    have hjpk : j.pk = "USER#" ++ uid := by
      unfold orderPartPred at hpj
      have := (Bool.and_eq_true _ _).mp hpj
      exact eq_of_beq this.1
    have hb : (j.pk == it.pk) = false := by
      apply beq_eq_false_iff_ne.mpr
      rw [hjpk]
      exact fun hh => hpk hh.symm
    simp [hb]

/-- Writing an order item into an owner's empty `ORDER#` slice makes it the
single element of that slice. -/
theorem userOrderItems_putItem_self (t : Table) (it : Item) (uid : String)
    (hpk : it.pk = "USER#" ++ uid) (hsk : beginsWith it.sk "ORDER#" = true)
    (hempty : userOrderItems t uid = []) :
    userOrderItems (putItem t it) uid = [it] := by
  have hfil : t.filter (orderPartPred uid) = [] := by
    have hperm := List.perm_insertionSort itemSkLe (t.filter (orderPartPred uid))
    unfold userOrderItems at hempty
    rw [hempty] at hperm
    exact hperm.nil_eq.symm
  have hit : orderPartPred uid it = true := by
    unfold orderPartPred
    simp [hpk, hsk]
  unfold userOrderItems putItem
  rw [List.filter_cons_of_pos (by simp [hit]), List.filter_filter]
  have hnil : t.filter (fun a => orderPartPred uid a && !(a.pk == it.pk && a.sk == it.sk)) = [] := by
    apply List.filter_eq_nil_iff.mpr
    intro a ha hcomb
    exact absurd ((Bool.and_eq_true _ _).mp hcomb).1
      (List.filter_eq_nil_iff.mp hfil a ha)
  rw [hnil]
  rfl

theorem orderExists_of_single (t : Table) (uid sid : String) (it : Item)
    (h1 : userOrderItems t uid = [it]) (hm : matchesSession sid it = true) :
    orderExistsForSession t uid sid = true := by
  unfold orderExistsForSession
  rw [h1]
  simp [hm]

theorem orderExists_of_empty (t : Table) (uid sid : String)
    (h : userOrderItems t uid = []) :
    orderExistsForSession t uid sid = false := by
  unfold orderExistsForSession
  rw [h]
  rfl

/-- A sweep materialization that finds an existing order skips and leaves
the table untouched. -/
theorem sweep_skips (s : StripeSession) (t : Table) (uid : String)
    (processedAt : String) (dryRun : Bool) (lineItemsOf : String → List LineItem)
    (nowSec ttlDays : Nat) (howner : sweepRawOwner s = some uid)
    (hex : orderExistsForSession t uid s.id = true) :
    createOrderSnapshotFromSession s t processedAt dryRun lineItemsOf nowSec ttlDays
      = ((false, none), t) := by
  unfold createOrderSnapshotFromSession
  rw [howner]
  simp [hex]

/-- A sweep materialization over an owner with no stored orders creates the
session's order item. -/
theorem sweep_creates (s : StripeSession) (t : Table) (uid : String)
    (processedAt : String) (lineItemsOf : String → List LineItem)
    (nowSec ttlDays : Nat) (howner : sweepRawOwner s = some uid)
    (hempty : userOrderItems t uid = []) :
    createOrderSnapshotFromSession s t processedAt false lineItemsOf nowSec ttlDays
      = ((true, some (nightlyGenerateOrderNumber s.id nowSec)),
         putItem t (sweepOrderItem s uid processedAt lineItemsOf nowSec ttlDays)) := by
  unfold createOrderSnapshotFromSession
  rw [howner]
  simp [orderExists_of_empty t uid s.id hempty]

/-- One loop step of `_run_sync` when the materializer creates. -/
theorem runSyncLoop_cons_create (s : StripeSession) (rest : List StripeSession)
    (t t₁ : Table) (processed created skipped : Nat) (orders : List String)
    (maxSessions : Nat) (lineItemsOf : String → List LineItem)
    (nowSec ttlDays : Nat) (startedAt : String) (onum : String)
    (hlt : ¬ processed ≥ maxSessions)
    (hstep : createOrderSnapshotFromSession s t startedAt false lineItemsOf nowSec ttlDays
      = ((true, some onum), t₁)) :
    runSyncLoop (s :: rest) t processed created skipped orders maxSessions false
        lineItemsOf nowSec ttlDays startedAt
      = runSyncLoop rest t₁ (processed + 1) (created + 1) skipped (orders ++ [onum])
          maxSessions false lineItemsOf nowSec ttlDays startedAt := by
  rw [runSyncLoop, if_neg hlt, hstep]

/-- One loop step of `_run_sync` when the materializer skips. -/
theorem runSyncLoop_cons_skip (s : StripeSession) (rest : List StripeSession)
    (t t₁ : Table) (processed created skipped : Nat) (orders : List String)
    (maxSessions : Nat) (lineItemsOf : String → List LineItem)
    (nowSec ttlDays : Nat) (startedAt : String)
    (hlt : ¬ processed ≥ maxSessions)
    (hstep : createOrderSnapshotFromSession s t startedAt false lineItemsOf nowSec ttlDays
      = ((false, none), t₁)) :
    runSyncLoop (s :: rest) t processed created skipped orders maxSessions false
        lineItemsOf nowSec ttlDays startedAt
      = runSyncLoop rest t₁ (processed + 1) created (skipped + 1) orders
          maxSessions false lineItemsOf nowSec ttlDays startedAt := by
  rw [runSyncLoop, if_neg hlt, hstep]

/-- Over sessions with distinct resolvable owners whose partitions are all
empty, the sweep loop creates one order per session, and afterwards each
owner's partition holds exactly that session's order item. -/
theorem runSyncLoop_creates_all
    (lineItemsOf : String → List LineItem) (nowSec ttlDays : Nat)
    (startedAt : String) (maxSessions : Nat) :
    ∀ (sessions : List StripeSession) (t : Table)
      (processed created skipped : Nat) (orders : List String),
      processed + sessions.length ≤ maxSessions →
      (∀ s ∈ sessions, ∃ uid, sweepRawOwner s = some uid ∧ userOrderItems t uid = []) →
      sessions.Pairwise (fun a b => sweepRawOwner a ≠ sweepRawOwner b) →
      ∃ t',
        runSyncLoop sessions t processed created skipped orders maxSessions false
            lineItemsOf nowSec ttlDays startedAt
          = ((processed + sessions.length, created + sessions.length, skipped,
              orders ++ sessions.map fun s => nightlyGenerateOrderNumber s.id nowSec), t')
        ∧ (∀ s ∈ sessions, ∀ uid, sweepRawOwner s = some uid →
            userOrderItems t' uid
              = [sweepOrderItem s uid startedAt lineItemsOf nowSec ttlDays])
        ∧ (∀ uid, (∀ s ∈ sessions, sweepRawOwner s ≠ some uid) →
            userOrderItems t' uid = userOrderItems t uid) := by
  intro sessions
  induction sessions with
  | nil =>
    intro t processed created skipped orders _ _ _
    refine ⟨t, ?_, by simp, fun uid _ => rfl⟩
    simp [runSyncLoop]
  | cons s rest ih =>
    intro t processed created skipped orders hmax hown hdist
    obtain ⟨uid, hu, hemp⟩ := hown s (List.mem_cons_self _ _)
    have hstep := sweep_creates s t uid startedAt lineItemsOf nowSec ttlDays hu hemp
    have hdisthead : ∀ b ∈ rest, sweepRawOwner s ≠ sweepRawOwner b :=
      (List.pairwise_cons.mp hdist).1
    have hdisttail := (List.pairwise_cons.mp hdist).2
    have hitempk : (sweepOrderItem s uid startedAt lineItemsOf nowSec ttlDays).pk
        = "USER#" ++ uid := rfl
    have hown' : ∀ s' ∈ rest, ∃ uid', sweepRawOwner s' = some uid'
        ∧ userOrderItems (putItem t (sweepOrderItem s uid startedAt lineItemsOf nowSec ttlDays)) uid' = [] := by
      intro s' hs'
      obtain ⟨uid', hu', hemp'⟩ := hown s' (List.mem_cons_of_mem _ hs')
      refine ⟨uid', hu', ?_⟩
      have hne : uid ≠ uid' := by
        intro hEq
        exact hdisthead s' hs' (by rw [hu, hu', hEq])
      have hpkne : (sweepOrderItem s uid startedAt lineItemsOf nowSec ttlDays).pk
          ≠ "USER#" ++ uid' := by
        rw [hitempk]
        intro hh
        exact hne (user_pk_inj hh)
      rw [userOrderItems_putItem_ne _ _ _ hpkne, hemp']
    have hmax' : (processed + 1) + rest.length ≤ maxSessions := by
      simp only [List.length_cons] at hmax
      omega
    obtain ⟨t', heq, hpart, hframe⟩ :=
      ih (putItem t (sweepOrderItem s uid startedAt lineItemsOf nowSec ttlDays))
        (processed + 1) (created + 1) skipped
        (orders ++ [nightlyGenerateOrderNumber s.id nowSec]) hmax' hown' hdisttail
    have hlt : ¬ processed ≥ maxSessions := by
      simp only [List.length_cons] at hmax
      omega
    refine ⟨t', ?_, ?_, ?_⟩
    · rw [runSyncLoop_cons_create s rest t _ processed created skipped orders maxSessions
        lineItemsOf nowSec ttlDays startedAt _ hlt hstep, heq]
      have h1 : processed + 1 + rest.length = processed + (s :: rest).length := by
        simp only [List.length_cons]; omega
      have h2 : created + 1 + rest.length = created + (s :: rest).length := by
        simp only [List.length_cons]; omega
      rw [h1, h2]
      simp
    · intro s' hs' uid' hu'
      rcases List.mem_cons.mp hs' with rfl | hs'
      · have huid : uid' = uid := by
          rw [hu] at hu'
          exact (Option.some.inj hu').symm
        subst huid
        have hnotrest : ∀ s'' ∈ rest, sweepRawOwner s'' ≠ some uid' := by
          intro s'' hs'' hcontra
          exact hdisthead s'' hs'' (by rw [hu, hcontra])
        rw [hframe uid' hnotrest]
        refine userOrderItems_putItem_self t _ uid' rfl ?_ hemp
        show beginsWith ("ORDER#" ++ toString (s'.created.getD nowSec) ++ "#" ++ s'.id)
          "ORDER#" = true
        rw [String.append_assoc, String.append_assoc]
        exact beginsWith_append _ _
      · exact hpart s' hs' uid' hu'
    · intro uid' hno
      have hnos : sweepRawOwner s ≠ some uid' := hno s (List.mem_cons_self _ _)
      have hnorest : ∀ s'' ∈ rest, sweepRawOwner s'' ≠ some uid' :=
        fun s'' h => hno s'' (List.mem_cons_of_mem _ h)
      rw [hframe uid' hnorest]
      apply userOrderItems_putItem_ne
      rw [hitempk]
      intro hh
      exact hnos (by rw [hu, user_pk_inj hh])

/-- When every session of the list is skipped without touching the table,
the loop only counts. -/
theorem runSyncLoop_all_skip
    (lineItemsOf : String → List LineItem) (nowSec ttlDays : Nat)
    (startedAt : String) (maxSessions : Nat) :
    ∀ (sessions : List StripeSession) (t : Table)
      (processed created skipped : Nat) (orders : List String),
      processed + sessions.length ≤ maxSessions →
      (∀ s ∈ sessions, createOrderSnapshotFromSession s t startedAt false lineItemsOf
        nowSec ttlDays = ((false, none), t)) →
      runSyncLoop sessions t processed created skipped orders maxSessions false
          lineItemsOf nowSec ttlDays startedAt
        = ((processed + sessions.length, created, skipped + sessions.length, orders), t) := by
  intro sessions
  induction sessions with
  | nil =>
    intro t processed created skipped orders _ _
    simp [runSyncLoop]
  | cons s rest ih =>
    intro t processed created skipped orders hmax hskip
    have hlt : ¬ processed ≥ maxSessions := by
      simp only [List.length_cons] at hmax
      omega
    have hmax' : (processed + 1) + rest.length ≤ maxSessions := by
      simp only [List.length_cons] at hmax
      omega
    rw [runSyncLoop_cons_skip s rest t t processed created skipped orders maxSessions
      lineItemsOf nowSec ttlDays startedAt hlt (hskip s (List.mem_cons_self _ _)),
      ih t (processed + 1) created (skipped + 1) orders hmax'
        (fun s' hs' => hskip s' (List.mem_cons_of_mem _ hs'))]
    have h1 : processed + 1 + rest.length = processed + (s :: rest).length := by
      simp only [List.length_cons]; omega
    have h2 : skipped + 1 + rest.length = skipped + (s :: rest).length := by
      simp only [List.length_cons]; omega
    rw [h1, h2]

/-! ## Sweep convergence (C4) and the sweep-side existence check (C1) -/

/-- Fixture: a completed session owned (via metadata) by `u`. -/
def sessA : StripeSession :=
  { id := "cs_a", created := some 100, metadata := [("userId", "u")] }

/-- Fixture: a second completed session of the same owner `u`. -/
def sessB : StripeSession :=
  { id := "cs_b", created := some 200, metadata := [("userId", "u")] }

/-- Fixture: a completed session with neither a metadata owner nor a
customer email. -/
def sessNoOwner : StripeSession :=
  { id := "cs_c" }

/-- Fixture: sessions of two distinct owners. -/
def sessU1 : StripeSession :=
  { id := "cs_u1", created := some 100, metadata := [("userId", "u1")] }

/-- Fixture: second distinct-owner session. -/
def sessU2 : StripeSession :=
  { id := "cs_u2", created := some 200, metadata := [("userId", "u2")] }

/-- **C4 (counterexample).** Two failures of the claim as stated.  With
two sessions of the *same* owner, the first run creates both orders, but
the second run reports `created = 1`, not `0`: the existence probe reads
only the owner's first `ORDER#` record (`Limit=1` is applied before the
`FilterExpression`), misses `cs_b`'s order, and re-executes its write
(the identical key makes it an overwrite, so the record count happens not
to grow).  And a session with no resolvable owner is skipped, so a run
over one such session creates `0` orders, not `N = 1`. -/
theorem C4_counterexample :
    (runSync [] [sessA, sessB] 25 500 false (fun _ => []) 1000 0 "s1" "e1").1.created = 2
    ∧ (runSync (runSync [] [sessA, sessB] 25 500 false (fun _ => []) 1000 0 "s1" "e1").2
        [sessA, sessB] 25 500 false (fun _ => []) 2000 0 "s2" "e2").1.created = 1
    ∧ ordersForSession
        (runSync (runSync [] [sessA, sessB] 25 500 false (fun _ => []) 1000 0 "s1" "e1").2
          [sessA, sessB] 25 500 false (fun _ => []) 2000 0 "s2" "e2").2 "cs_b" = 1
    ∧ (runSync [] [sessNoOwner] 25 500 false (fun _ => []) 1000 0 "s3" "e3").1.created = 0 := by
  decide

/-- **C4 (amended).** For sessions with resolvable, pairwise-distinct
owners none of whom has any stored order record, one sweep run (with
`maxSessions ≥ N`, no processor errors, `dryRun = false`) creates exactly
one order per session — each owner's partition afterwards holds exactly
that session's order — and a second run over the same sessions creates
zero orders. -/
theorem C4_amended_sweep_convergence (t : Table) (sessions : List StripeSession)
    (lineItemsOf : String → List LineItem)
    (lb₁ lb₂ max now₁ now₂ ttl : Nat) (a₁ b₁ a₂ b₂ : String)
    (hmax : sessions.length ≤ max)
    (hown : ∀ s ∈ sessions, ∃ uid, sweepRawOwner s = some uid
      ∧ userOrderItems t uid = [])
    (hdist : sessions.Pairwise fun a b => sweepRawOwner a ≠ sweepRawOwner b) :
    (runSync t sessions lb₁ max false lineItemsOf now₁ ttl a₁ b₁).1.created
        = sessions.length
    ∧ (∀ s ∈ sessions, ∀ uid, sweepRawOwner s = some uid →
        userOrderItems (runSync t sessions lb₁ max false lineItemsOf now₁ ttl a₁ b₁).2 uid
          = [sweepOrderItem s uid a₁ lineItemsOf now₁ ttl])
    ∧ (runSync (runSync t sessions lb₁ max false lineItemsOf now₁ ttl a₁ b₁).2 sessions
        lb₂ max false lineItemsOf now₂ ttl a₂ b₂).1.created = 0 := by
  obtain ⟨t', heq, hpart, -⟩ :=
    runSyncLoop_creates_all lineItemsOf now₁ ttl a₁ max sessions t 0 0 0 []
      (by omega) hown hdist
  have hr1 : runSync t sessions lb₁ max false lineItemsOf now₁ ttl a₁ b₁
      = ({ processed := 0 + sessions.length, created := 0 + sessions.length,
           skipped := 0, errors := 0,
           createdOrders := [] ++ sessions.map fun s => nightlyGenerateOrderNumber s.id now₁ },
         updateSyncState t' a₁ b₁ (0 + sessions.length) (0 + sessions.length) 0 0
           (now₁ - lb₁ * 3600) now₁ false) := by
    unfold runSync
    rw [heq]
  have ht2 : updateSyncState t' a₁ b₁ (0 + sessions.length) (0 + sessions.length) 0 0
      (now₁ - lb₁ * 3600) now₁ false
      = putItem t'
          { pk := "SYSTEM", sk := "STRIPE_ORDER_SYNC",
            data := .syncState
              { lastSyncStartedAt := a₁, lastSyncCompletedAt := b₁
                lastSyncProcessed := 0 + sessions.length
                lastSyncCreated := 0 + sessions.length
                lastSyncSkipped := 0, lastSyncErrors := 0
                lastLookbackStart := now₁ - lb₁ * 3600
                lastLookbackEnd := now₁, updatedAt := b₁ } } := by
    unfold updateSyncState
    rfl
  have hpart2 : ∀ s ∈ sessions, ∀ uid, sweepRawOwner s = some uid →
      userOrderItems (runSync t sessions lb₁ max false lineItemsOf now₁ ttl a₁ b₁).2 uid
        = [sweepOrderItem s uid a₁ lineItemsOf now₁ ttl] := by
    intro s hs uid hu
    rw [hr1]
    show userOrderItems (updateSyncState t' a₁ b₁ _ _ 0 0 _ now₁ false) uid = _
    rw [ht2, userOrderItems_putItem_ne _ _ _ (sys_ne_user uid)]
    exact hpart s hs uid hu
  refine ⟨?_, hpart2, ?_⟩
  · rw [hr1]
    simp
  · set t₂ := (runSync t sessions lb₁ max false lineItemsOf now₁ ttl a₁ b₁).2 with ht₂
    have hskip : ∀ s ∈ sessions,
        createOrderSnapshotFromSession s t₂ a₂ false lineItemsOf now₂ ttl
          = ((false, none), t₂) := by
      intro s hs
      obtain ⟨uid, hu, -⟩ := hown s hs
      apply sweep_skips s t₂ uid a₂ false lineItemsOf now₂ ttl hu
      apply orderExists_of_single t₂ uid s.id
        (sweepOrderItem s uid a₁ lineItemsOf now₁ ttl) (hpart2 s hs uid hu)
      simp [matchesSession, sweepOrderItem, sweepOrderRec]
    have hloop := runSyncLoop_all_skip lineItemsOf now₂ ttl a₂ max sessions t₂ 0 0 0 []
      (by omega) hskip
    unfold runSync
    rw [hloop]

/-- `C4_amended_sweep_convergence` on two concrete distinct-owner sessions
over the empty store. -/
theorem C4_amended_sweep_convergence_witness :
    (runSync [] [sessU1, sessU2] 25 500 false (fun _ => []) 1000 0 "s1" "e1").1.created = 2
    ∧ (∀ s ∈ [sessU1, sessU2], ∀ uid, sweepRawOwner s = some uid →
        userOrderItems (runSync [] [sessU1, sessU2] 25 500 false (fun _ => []) 1000 0
          "s1" "e1").2 uid = [sweepOrderItem s uid "s1" (fun _ => []) 1000 0])
    ∧ (runSync (runSync [] [sessU1, sessU2] 25 500 false (fun _ => []) 1000 0 "s1" "e1").2
        [sessU1, sessU2] 25 500 false (fun _ => []) 2000 0 "s2" "e2").1.created = 0 :=
  C4_amended_sweep_convergence [] [sessU1, sessU2] (fun _ => []) 25 25 500 1000 2000 0
    "s1" "e1" "s2" "e2" (by decide)
    (by
      intro s hs
      rcases List.mem_cons.mp hs with rfl | hs
      · exact ⟨"u1", by decide, by decide⟩
      rcases List.mem_cons.mp hs with rfl | hs
      · exact ⟨"u2", by decide, by decide⟩
      cases hs)
    (by decide)

/-- **C1 (amended).** The owner+session existence check precedes the order
write on the reconciliation-sweep path, which skips (writing nothing) when
an order is found; the webhook path performs no such check and can persist
several Order Snapshots for one session (see the counterexample). -/
theorem C1_amended_sweep_existence_check (s : StripeSession) (t : Table)
    (uid : String) (processedAt : String) (dryRun : Bool)
    (lineItemsOf : String → List LineItem) (nowSec ttlDays : Nat)
    (howner : sweepRawOwner s = some uid)
    (hex : orderExistsForSession t uid s.id = true) :
    createOrderSnapshotFromSession s t processedAt dryRun lineItemsOf nowSec ttlDays
      = ((false, none), t) :=
  sweep_skips s t uid processedAt dryRun lineItemsOf nowSec ttlDays howner hex

/-- Fixture: an existing order row for owner `u1` and session `cs_fix_1`. -/
def fixtureOrder : OrderRec :=
  { orderId := "cs_fix_1", orderNumber := "BC-FIX1", userId := "u1",
    status := "completed", amount := 1000, amountSubtotal := 1000,
    currency := "usd", items := [], itemCount := 0, createdAt := "c",
    updatedAt := "c", completedAt := "c", stripeSessionId := "cs_fix_1",
    stripePaymentIntentId := none, stripeCustomerId := none,
    stripePaymentStatus := none, customerEmail := none }

/-- Fixture: a table already holding `fixtureOrder`. -/
def fixtureTable : Table :=
  [{ pk := "USER#u1", sk := "ORDER#100#cs_fix_1", data := .order fixtureOrder }]

/-- Fixture: the session whose completion `fixtureOrder` records. -/
def fixtureSession : StripeSession :=
  { id := "cs_fix_1", metadata := [("userId", "u1")] }

/-- `C1_amended_sweep_existence_check` on the concrete fixture state. -/
theorem C1_amended_sweep_existence_check_witness :
    createOrderSnapshotFromSession fixtureSession fixtureTable "p" false
      (fun _ => []) 999 0 = ((false, none), fixtureTable) :=
  C1_amended_sweep_existence_check fixtureSession fixtureTable "u1" "p" false
    (fun _ => []) 999 0 (by decide) (by decide)

/-! ## Quote enrichment (C9)

`babes-website-cart-quote` persists the quote under
`(CART#normalizedHash, QUOTE#createdAt#uuid)` and the signature pointer
under `(QUOTE#signature, METADATA)` (lines 289–311).  The webhook's
`_get_quote_data` reads `(QUOTE#signature, CACHE)` — a key no writer in the
repository ever produces. -/

/-- The `quote_item` written by the cart-quote Lambda. -/
def cartQuoteQuoteItem (sig hash nowIso uuidHex : String) (items : List CartEntry)
    (pricing : PricingPayload) (qexp : Nat) : Item :=
  { pk := "CART#" ++ hash
    sk := "QUOTE#" ++ nowIso ++ "#" ++ uuidHex
    data := .quoteCache
      { quoteSignature := sig, normalizedHash := hash, createdAt := nowIso,
        requestItems := items, pricingSummary := pricing, expiresAt := qexp } }

/-- The `pointer_item` written by the cart-quote Lambda. -/
def cartQuotePointerItem (sig hash nowIso : String) (qexp : Nat) : Item :=
  { pk := "QUOTE#" ++ sig
    sk := "METADATA"
    data := .quotePointer
      { normalizedHash := hash, quoteCreatedAt := nowIso, expiresAt := Int.ofNat qexp } }

/-- `put_quote_records`: both puts of the cart-quote batch write (the
success case). -/
def cartQuoteWrites (t : Table) (sig hash nowIso uuidHex : String)
    (items : List CartEntry) (pricing : PricingPayload) (qexp : Nat) : Table :=
  putItem (putItem t (cartQuoteQuoteItem sig hash nowIso uuidHex items pricing qexp))
    (cartQuotePointerItem sig hash nowIso qexp)

theorem mem_putItem {t : Table} {x it : Item} (h : it ∈ putItem t x) :
    it = x ∨ it ∈ t := by
  unfold putItem at h
  rcases List.mem_cons.mp h with h | h
  · exact Or.inl h
  · exact Or.inr (List.mem_of_mem_filter h)

theorem quote_sk_ne_cache (a : String) : "QUOTE#" ++ a ≠ "CACHE" := by
  intro h
  have h2 := congrArg String.data h
  rw [String.data_append] at h2
  simp at h2

theorem cart_ne_quote (a b : String) : "CART#" ++ a ≠ "QUOTE#" ++ b := by
  intro h
  have h2 := congrArg String.data h
  rw [String.data_append, String.data_append] at h2
  simp at h2

/-- No writer of this system produces a `CACHE` sort key; point lookups of
`(_, CACHE)` on such tables return nothing. -/
theorem getQuoteData_none (qs : String) (t : Table)
    (h : ∀ it ∈ t, it.sk ≠ "CACHE") : getQuoteData qs t = none := by
  unfold getQuoteData getItem
  apply List.find?_eq_none.mpr
  intro it hit
  have hsk : (it.sk == "CACHE") = false := beq_eq_false_iff_ne.mpr (h it hit)
  simp [hsk]

theorem cartQuoteWrites_no_cache (t : Table) (h : ∀ it ∈ t, it.sk ≠ "CACHE")
    (sig hash nowIso uuidHex : String) (items : List CartEntry)
    (pricing : PricingPayload) (qexp : Nat) :
    ∀ it ∈ cartQuoteWrites t sig hash nowIso uuidHex items pricing qexp,
      it.sk ≠ "CACHE" := by
  intro it hit
  rcases mem_putItem hit with rfl | hit
  · intro hc
    exact absurd hc (by simp [cartQuotePointerItem])
  rcases mem_putItem hit with rfl | hit
  · exact quote_sk_ne_cache _
  · exact h it hit

/-- **C9.** The cart-quote writer stores the quote (with its pricing
summary) under `(CART#hash, QUOTE#…)`, yet the webhook's enrichment lookup
reads `(QUOTE#signature, CACHE)`, which no writer produces: materializing
an order for a session whose `quoteSignature` has a cached quote with a
pricing summary still persists the Order Snapshot **without**
`pricingSummary` (the lookup miss is non-fatal, exactly as the second half
of the claim says — but the enrichment can never happen). -/
theorem C9_quote_enrichment_dangling_read
    (t₀ : Table) (h₀ : ∀ it ∈ t₀, it.sk ≠ "CACHE")
    (sig hash nowIso uuidHex : String) (items : List CartEntry)
    (pricing : PricingPayload) (qexp : Nat)
    (sid : String) (d : DataObject) (metadata : List (String × String))
    (processedAt : String) (lineItems : List LineItem) (nowSec ttlDays : Nat)
    (raw : String) (howner : resolveRawOwner d metadata = some raw)
    (hsan : sanitizeUserId raw ≠ "") :
    getItem (cartQuoteWrites t₀ sig hash nowIso uuidHex items pricing qexp)
        ("CART#" ++ hash) ("QUOTE#" ++ nowIso ++ "#" ++ uuidHex)
      = some (cartQuoteQuoteItem sig hash nowIso uuidHex items pricing qexp)
    ∧ ∃ o t',
        createOrderSnapshotWebhook sid d metadata (some sig) processedAt
            (cartQuoteWrites t₀ sig hash nowIso uuidHex items pricing qexp)
            lineItems nowSec ttlDays false
          = (some o, t')
        ∧ o.pricingSummary = none ∧ o.totalDiscountCents = none
        ∧ o.discounts = none := by
  have hwp : webhookQuotePricing (some sig)
      (cartQuoteWrites t₀ sig hash nowIso uuidHex items pricing qexp) = none := by
    unfold webhookQuotePricing
    by_cases hsig : sig = ""
    · simp [pyStrOpt, hsig]
    · simp [pyStrOpt, hsig,
        getQuoteData_none sig _
          (cartQuoteWrites_no_cache t₀ h₀ sig hash nowIso uuidHex items pricing qexp)]
  constructor
  · unfold cartQuoteWrites getItem putItem
    have hpk : (("QUOTE#" ++ sig) == ("CART#" ++ hash)) = false :=
      beq_eq_false_iff_ne.mpr fun h => cart_ne_quote hash sig h.symm
    simp [cartQuotePointerItem, cartQuoteQuoteItem, hpk, List.find?]
  · refine ⟨webhookOrderRec sid d metadata (some sig) processedAt
        (cartQuoteWrites t₀ sig hash nowIso uuidHex items pricing qexp) lineItems
        nowSec ttlDays (sanitizeUserId raw),
      putItem (cartQuoteWrites t₀ sig hash nowIso uuidHex items pricing qexp)
        (webhookOrderItem sid d metadata (some sig) processedAt
          (cartQuoteWrites t₀ sig hash nowIso uuidHex items pricing qexp) lineItems
          nowSec ttlDays (sanitizeUserId raw)),
      ?_, ?_, ?_, ?_⟩
    · unfold createOrderSnapshotWebhook
      rw [howner]
      simp [hsan]
    · simp [webhookOrderRec, hwp]
    · simp [webhookOrderRec, hwp]
    · simp [webhookOrderRec, hwp]

/-- `C9_quote_enrichment_dangling_read` on concrete data: a freshly cached
quote with a non-empty pricing summary, then a webhook materialization for
its session. -/
theorem C9_quote_enrichment_dangling_read_witness :
    getItem (cartQuoteWrites [] "SIGX" "HASHX" "2025-11-26T00:00:00" "uu1" []
        { fields := [("subtotal", .int 1000)] } 99)
        ("CART#" ++ "HASHX") ("QUOTE#" ++ "2025-11-26T00:00:00" ++ "#" ++ "uu1")
      = some (cartQuoteQuoteItem "SIGX" "HASHX" "2025-11-26T00:00:00" "uu1" []
          { fields := [("subtotal", .int 1000)] } 99)
    ∧ ∃ o t',
        createOrderSnapshotWebhook "cs_x" { customerEmail := some "a@b.co" } []
            (some "SIGX") "p"
            (cartQuoteWrites [] "SIGX" "HASHX" "2025-11-26T00:00:00" "uu1" []
              { fields := [("subtotal", .int 1000)] } 99)
            [] 1000 0 false
          = (some o, t')
        ∧ o.pricingSummary = none ∧ o.totalDiscountCents = none
        ∧ o.discounts = none :=
  C9_quote_enrichment_dangling_read [] (by intro it hit; cases hit)
    "SIGX" "HASHX" "2025-11-26T00:00:00" "uu1" []
    { fields := [("subtotal", .int 1000)] } 99 "cs_x"
    { customerEmail := some "a@b.co" } [] "p" [] 1000 0 "a@b.co"
    (by decide) (by decide)

/-! ## Order-number claims (C8) -/

/-- **C8 (counterexample).** The claim fails on the code in two ways.
For `sid = "x234567_9"` the code keeps only the alphanumerics *among the
last 8 characters* (`BC-2345679`), not the last 8 alphanumeric characters
of the whole identifier (`BC-X2345679`).  And for `sid = "________"` the
sweep copy returns the bare prefix `BC-` with no timestamp fallback, while
the claim promises the fallback on both paths. -/
theorem C8_counterexample :
    webhookGenerateOrderNumber "x234567_9" 1700000000
        ≠ specOrderNumber "x234567_9" 1700000000
      ∧ nightlyGenerateOrderNumber "________" 1700000000 = "BC-"
      ∧ specOrderNumber "________" 1700000000 = "BC-" ++ toString 1700000000 := by
  refine ⟨?_, rfl, rfl⟩
  decide

/-- **C8 (amended).** The `orderNumber` is the prefix `BC-` followed by the
alphanumeric characters among the last 8 characters of the session
identifier, uppercased, whenever that suffix is nonempty — identically on
the webhook and the sweep paths.  (When the suffix is empty only the
webhook path falls back to timestamp digits; for an empty identifier both
paths use the full timestamp.) -/
theorem C8_amended (sid : String) (nowSec : Nat) (hne : sid ≠ "")
    (hsuf : stripNonUpperAlnum (strUpper (lastChars 8 sid)) ≠ "") :
    webhookGenerateOrderNumber sid nowSec
        = "BC-" ++ stripNonUpperAlnum (strUpper (lastChars 8 sid))
      ∧ nightlyGenerateOrderNumber sid nowSec = webhookGenerateOrderNumber sid nowSec := by
  unfold webhookGenerateOrderNumber nightlyGenerateOrderNumber
  simp [hne, hsuf]

/-- `C8_amended` at the session id `cs_test_a1B2c3D4`. -/
theorem C8_amended_witness :
    webhookGenerateOrderNumber "cs_test_a1B2c3D4" 7
        = "BC-" ++ stripNonUpperAlnum (strUpper (lastChars 8 "cs_test_a1B2c3D4"))
      ∧ nightlyGenerateOrderNumber "cs_test_a1B2c3D4" 7
        = webhookGenerateOrderNumber "cs_test_a1B2c3D4" 7 :=
  C8_amended "cs_test_a1B2c3D4" 7 (by decide) (by decide)

/-! ## Owner sanitization (C10) -/

theorem sanitize_length_le (s : String) : (sanitizeUserId s).data.length ≤ 256 := by
  unfold sanitizeUserId
  simp

theorem sanitize_all_allowed (s : String) :
    (sanitizeUserId s).data.all isUserIdChar = true := by
  unfold sanitizeUserId
  simp only [List.all_eq_true]
  intro c hc
  exact List.of_mem_filter (List.mem_of_mem_take hc)

/-- **C10.** On the webhook path the order's owner key is the sanitized
resolved identifier — every character outside `[a-zA-Z0-9@.\-_]` removed,
truncated to 256 characters — and materialization aborts without writing
when no identifier resolves or the sanitized identifier is empty. -/
theorem C10_owner_sanitization (sid : String) (d : DataObject)
    (metadata : List (String × String)) (qsig : Option String)
    (processedAt : String) (t : Table) (lineItems : List LineItem)
    (nowSec ttlDays : Nat) :
    (∀ o t', createOrderSnapshotWebhook sid d metadata qsig processedAt t
        lineItems nowSec ttlDays false = (some o, t') →
      ∃ raw, resolveRawOwner d metadata = some raw
        ∧ o.userId = sanitizeUserId raw ∧ o.userId ≠ ""
        ∧ o.userId.data.length ≤ 256 ∧ o.userId.data.all isUserIdChar = true)
    ∧ (∀ raw, resolveRawOwner d metadata = some raw → sanitizeUserId raw = "" →
        createOrderSnapshotWebhook sid d metadata qsig processedAt t
          lineItems nowSec ttlDays false = (none, t))
    ∧ (resolveRawOwner d metadata = none →
        createOrderSnapshotWebhook sid d metadata qsig processedAt t
          lineItems nowSec ttlDays false = (none, t)) := by
  refine ⟨?_, ?_, ?_⟩
  · intro o t' h
    unfold createOrderSnapshotWebhook at h
    cases hraw : resolveRawOwner d metadata with
    | none => rw [hraw] at h; simp at h
    | some raw =>
      rw [hraw] at h
      by_cases hempty : sanitizeUserId raw = ""
      · simp [hempty] at h
      · simp only [hempty, if_neg, Bool.false_eq_true, if_false] at h
        injection h with h₁ h₂
        injection h₁ with h₁
        refine ⟨raw, rfl, ?_, ?_, ?_, ?_⟩
        · rw [← h₁]; exact rfl
        · rw [← h₁]; exact hempty
        · rw [← h₁]; exact sanitize_length_le raw
        · rw [← h₁]; exact sanitize_all_allowed raw
  · intro raw hraw hempty
    unfold createOrderSnapshotWebhook
    rw [hraw]
    simp [hempty]
  · intro hraw
    unfold createOrderSnapshotWebhook
    rw [hraw]

/-- `C10_owner_sanitization` exercised at concrete inputs: a created order
for a metadata owner carrying disallowed characters, an abort for an owner
that sanitizes away entirely, and an abort with no owner at all. -/
theorem C10_owner_sanitization_witness :
    (∃ raw, resolveRawOwner {} [("userId", "u!ser<1>@ex.com")] = some raw
      ∧ ({ orderId := "s", orderNumber := "BC-S", userId := "user1@ex.com",
           status := "completed", amount := 0, amountSubtotal := 0,
           currency := "usd", items := [], itemCount := 0, createdAt := "",
           updatedAt := "", completedAt := "", stripeSessionId := "s",
           stripePaymentIntentId := none, stripeCustomerId := none,
           stripePaymentStatus := none, customerEmail := none } : OrderRec).userId
          = sanitizeUserId raw ∧ True)
    ∧ createOrderSnapshotWebhook "sid" {} [("userId", "!!!")] none "" [] [] 5 0 false
        = (none, [])
    ∧ createOrderSnapshotWebhook "sid" {} [] none "" [] [] 5 0 false = (none, []) := by
  refine ⟨⟨"u!ser<1>@ex.com", by decide, by decide, trivial⟩, ?_, ?_⟩
  · exact (C10_owner_sanitization "sid" {} [("userId", "!!!")] none "" [] [] 5 0).2.1
      "!!!" (by decide) (by decide)
  · exact (C10_owner_sanitization "sid" {} [] none "" [] [] 5 0).2.2 (by decide)

/-! ## At-most-one order per session (C1) -/

/-- **C1 (counterexample).** The webhook's `_create_order_snapshot`
performs no existence check: materializing twice for the same checkout
session (two completion deliveries, one second apart) persists two Order
Snapshot records for that session. -/
theorem C1_counterexample :
    ordersForSession
      (createOrderSnapshotWebhook "cs_test_abc123"
        { customerEmail := some "jane@example.com" } [] none
        "2025-11-26T00:00:05Z"
        (createOrderSnapshotWebhook "cs_test_abc123"
          { customerEmail := some "jane@example.com" } [] none
          "2025-11-26T00:00:00Z" [] [] 1000 0 false).2
        [] 1005 0 false).2
      "cs_test_abc123" = 2 := by
  decide

/-! ## The webhook handler (C2, C3)
(`babes-website-stripe-webhook/lambda_function.py`, `lambda_handler`,
lines 477–745)

External outcomes are explicit inputs: body decoding, signature-header
presence, the secret configuration, the outcome of
`stripe.Webhook.construct_event`, the optional `Session.retrieve` result,
the two elapsed-time checks, and injected failures of the three storage
writes that the source wraps in `try/except` (session-status update, order
put, event record).  The processor-mirrored extra attributes passed to
`update_session_status` are not modelled (no claim mentions them); the
status/`updatedAt` update of both records is.  `dict.setdefault` against
the fetched session is modelled as `Option.orElse` (a stored `None` and a
missing key coincide in the model). -/

/-- `stripe.Webhook.construct_event`'s outcome: a parsed event, a
signature failure (`SignatureVerificationError`), or an undecodable
payload (`ValueError`). -/
inductive VerifyOutcome where
  | ok (id : Option String) (type : Option String) (dataObject : DataObject)
  | badSignature
  | badPayload
  deriving Repr, DecidableEq

/-- `item.get("status", "already-processed")`. -/
def ItemData.statusAttr : ItemData → Option String
  | .event e => some e.status
  | .order o => some o.status
  | .session s => some s.status
  | .sessionPointer p => some p.status
  | _ => none

/-- `item.get("quoteSignature")`. -/
def ItemData.quoteSigAttr : ItemData → Option String
  | .sessionPointer p => some p.quoteSignature
  | .quoteCache q => some q.quoteSignature
  | _ => none

/-- The handler's `status_map` (default `"received"`). -/
def deriveStatus (etype : String) : String :=
  if etype = "checkout.session.completed" then "completed"
  else if etype = "checkout.session.expired" then "expired"
  else if etype = "checkout.session.async_payment_failed" then "failed"
  else if etype = "checkout.session.async_payment_succeeded" then "completed"
  else if etype = "checkout.session.async_payment_pending" then "pending"
  else if etype = "checkout.session.canceled" then "canceled"
  else "received"

/-- `COMPLETION_EVENTS`. -/
def isCompletionEvent (etype : String) : Bool :=
  etype == "checkout.session.completed"
    || etype == "checkout.session.async_payment_succeeded"

/-- `_summarize_event_object`. -/
def summarizeEventObject (d : DataObject) : StripeSummary :=
  { status := d.status
    paymentStatus := d.paymentStatus
    amountTotal := d.amountTotal
    amountSubtotal := d.amountSubtotal
    currency := d.currency
    customer := d.customer
    customerEmail := pyOrStr (d.customerDetails.bind (·.email)) d.customerEmail
    paymentIntent := d.paymentIntent
    metadata :=
      if d.metadata.isEmpty then none
      else some (d.metadata.map fun kv => (kv.1, ⟨kv.2.data.take 500⟩)) }

/-- `update_session_status` (`shared_commerce/storage.py`): set `status`
and `updatedAt` on both the session record and the session pointer
(`update_item` upserts; a fresh item carries only the set attributes,
modelled with empty defaults). -/
def updateSessionStatus (t : Table) (quoteSignature sessionId status updatedAt : String) :
    Table :=
  let sessionKeyPk := "QUOTE#" ++ quoteSignature
  let sessionKeySk := "SESSION#" ++ sessionId
  let t₁ :=
    match getItem t sessionKeyPk sessionKeySk with
    | some it =>
      match it.data with
      | .session s =>
        putItem t
          { pk := sessionKeyPk
            sk := sessionKeySk
            data := .session { s with status := status, updatedAt := some updatedAt } }
      | _ => putItem t it
    | none =>
      putItem t
        { pk := sessionKeyPk
          sk := sessionKeySk
          data := .session
            { status := status, createdAt := "", checkoutUrl := ""
              stripeSessionId := none, stripeCheckoutUrl := none, stripeStatus := none
              expiresAt := 0, updatedAt := some updatedAt } }
  let pointerPk := "SESSION#" ++ sessionId
  match getItem t₁ pointerPk "METADATA" with
  | some it =>
    match it.data with
    | .sessionPointer p =>
      putItem t₁
        { pk := pointerPk
          sk := "METADATA"
          data := .sessionPointer { p with status := status, updatedAt := some updatedAt } }
    | _ => putItem t₁ it
  | none =>
    putItem t₁
      { pk := pointerPk
        sk := "METADATA"
        data := .sessionPointer
          { quoteSignature := quoteSignature, status := status
            createdAt := "", expiresAt := 0, stripeSessionId := none
            stripeCheckoutUrl := none, stripeStatus := none, updatedAt := some updatedAt } }

/-- The `data_object.setdefault(...)` merge with the fetched session. -/
def mergeDataObject (d r : DataObject) : DataObject :=
  { d with
    url := d.url <|> r.url
    paymentStatus := d.paymentStatus <|> r.paymentStatus
    status := d.status <|> r.status
    amountTotal := d.amountTotal <|> r.amountTotal
    amountSubtotal := d.amountSubtotal <|> r.amountSubtotal
    currency := d.currency <|> r.currency
    customer := d.customer <|> r.customer
    customerEmail := d.customerEmail <|> r.customerEmail
    paymentIntent := d.paymentIntent <|> r.paymentIntent
    shippingDetails := d.shippingDetails <|> r.shippingDetails
    customerDetails := d.customerDetails <|> r.customerDetails }

/-- Lines 609–628: fold the fetched session into the event's data object,
metadata and quote signature. -/
def resolveWithRemote (d₀ : DataObject) (qsig₀ : Option String)
    (remote : Option DataObject) :
    DataObject × List (String × String) × Option String :=
  match remote with
  | none => (d₀, d₀.metadata, qsig₀)
  | some r =>
    let md := if d₀.metadata.isEmpty && !r.metadata.isEmpty then r.metadata
      else d₀.metadata
    let q :=
      match qsig₀ with
      | some q => some q
      | none =>
        pyStrOpt (pyOrStr (metaGet r.metadata "quoteSignature")
          (metaGet r.metadata "quote_signature"))
    (mergeDataObject d₀ r, md, q)

/-- An API-Gateway JSON response (status code plus the payload fields the
handler emits; absent keys are `none`). -/
structure LambdaResponse where
  statusCode : Nat
  error : Option String := none
  ok : Option Bool := none
  status : Option String := none
  sessionId : Option String := none
  eventId : Option String := none
  quoteSignature : Option String := none
  orderNumber : Option String := none
  orderId : Option String := none
  checkoutUrl : Option String := none
  deriving Repr, DecidableEq

/-- The request as the handler sees it. -/
structure WebhookRequest where
  method : String := "POST"
  bodyDecodes : Bool := true
  hasSignatureHeader : Bool := true
  verify : VerifyOutcome
  deriving Repr, DecidableEq

/-- Environment and external-call outcomes of one handler invocation. -/
structure WebhookEnv where
  secretConfigured : Bool := true
  stripeInit : Bool := true
  timeBudgetOk : Bool := true
  orderTimeBudgetOk : Bool := true
  lineItems : List LineItem := []
  remoteSession : Option DataObject := none
  nowSec : Nat := 0
  processedAt : String := ""
  eventTtlDays : Nat := 90
  orderTtlDays : Nat := 0
  updateFails : Bool := false
  orderPutFails : Bool := false
  recordEventFails : Bool := false
  deriving Repr, DecidableEq

/-- The verified part of `lambda_handler` (everything after
`construct_event` succeeded). -/
def webhookCore (evId evType : Option String) (d₀ : DataObject)
    (env : WebhookEnv) (t : Table) : LambdaResponse × Table :=
  match pyStrOpt evId with
  | none => ({ statusCode := 400, error := some "Stripe event id is required" }, t)
  | some eid =>
    match pyStrOpt evType with
    | none => ({ statusCode := 400, error := some "Stripe event type is required" }, t)
    | some etype =>
      match getItem t ("EVENT#" ++ eid) "METADATA" with
      | some existing =>
        ({ statusCode := 200,
           status := some ((existing.data.statusAttr).getD "already-processed") }, t)
      | none =>
            let sessionId := pyStrOpt (pyOrStr d₀.id d₀.sessionId)
            let derived := deriveStatus etype
            let expiresAt := env.nowSec + (max 1 env.eventTtlDays) * 86400
            let ptrQsig := sessionId.bind fun sid =>
              (getItem t ("SESSION#" ++ sid) "METADATA").bind fun it =>
                pyStrOpt it.data.quoteSigAttr
            let metaQsig := pyStrOpt (pyOrStr (metaGet d₀.metadata "quoteSignature")
              (metaGet d₀.metadata "quote_signature"))
            let qsig₀ := match ptrQsig with | some q => some q | none => metaQsig
            let doFetch := sessionId.isSome && env.timeBudgetOk
              && (qsig₀.isNone || d₀.metadata.isEmpty) && env.stripeInit
            let remote := if doFetch then env.remoteSession else none
            let resolved := resolveWithRemote d₀ qsig₀ remote
            let d := resolved.1
            let metadataFE := resolved.2.1
            let qsig := resolved.2.2
            let t₁ :=
              match qsig, sessionId with
              | some q, some sid =>
                if env.updateFails then t
                else updateSessionStatus t q sid derived env.processedAt
              | _, _ => t
            let step₂ :=
              if isCompletionEvent etype then
                match sessionId with
                | some sid =>
                  if env.orderTimeBudgetOk then
                    createOrderSnapshotWebhook sid d metadataFE qsig env.processedAt
                      t₁ env.lineItems env.nowSec env.orderTtlDays env.orderPutFails
                  else (none, t₁)
                | none => (none, t₁)
              else (none, t₁)
            let snapshot := step₂.1
            let t₂ := step₂.2
            let eventItem : Item :=
              { pk := "EVENT#" ++ eid, sk := "METADATA"
                data := .event
                  { eventType := etype, processedAt := env.processedAt
                    sessionId := sessionId, status := derived
                    quoteSignature := qsig, expiresAt := expiresAt
                    stripeSummary := summarizeEventObject d
                    signatureVerified := true
                    orderCreated := snapshot.isSome
                    orderNumber := snapshot.map (·.orderNumber) } }
            let t₃ := if env.recordEventFails then t₂ else putItem t₂ eventItem
            ({ statusCode := 200, status := some derived, sessionId := sessionId,
               eventId := some eid, quoteSignature := qsig,
               orderNumber := snapshot.map (·.orderNumber),
               orderId := snapshot.map (·.orderId) }, t₃)

/-- `lambda_handler` from the method check on (CORS handling is
response-header plumbing and is not modelled). -/
def webhookHandler (req : WebhookRequest) (env : WebhookEnv) (t : Table) :
    LambdaResponse × Table :=
  let method := strUpper ((pyStrOpt (some req.method)).getD "POST")
  if method = "OPTIONS" then ({ statusCode := 200, ok := some true }, t)
  else if method ≠ "POST" then
    ({ statusCode := 405, error := some "Method not allowed" }, t)
  else if !req.bodyDecodes then
    ({ statusCode := 400, error := some "Invalid request body" }, t)
  else if !req.hasSignatureHeader then
    ({ statusCode := 400, error := some "Missing Stripe-Signature header" }, t)
  else if !env.secretConfigured then
    ({ statusCode := 500, error := some "Webhook service misconfigured" }, t)
  else
    match req.verify with
    | .badSignature => ({ statusCode := 400, error := some "Invalid Stripe signature" }, t)
    | .badPayload => ({ statusCode := 400, error := some "Invalid Stripe payload" }, t)
    | .ok evId evType d₀ => webhookCore evId evType d₀ env t

/-- A well-formed POST delivery that passes signature verification reaches
the verified core. -/
theorem webhookHandler_ok (req : WebhookRequest) (env : WebhookEnv) (t : Table)
    (evId evType : Option String) (d : DataObject)
    (hver : req.verify = .ok evId evType d)
    (hmethod : strUpper ((pyStrOpt (some req.method)).getD "POST") = "POST")
    (hbody : req.bodyDecodes = true)
    (hsig : req.hasSignatureHeader = true)
    (hsecret : env.secretConfigured = true) :
    webhookHandler req env t = webhookCore evId evType d env t := by
  unfold webhookHandler
  rw [hmethod, hver, hbody, hsig, hsecret]
  simp

/-- **C2.** A delivery whose `eventId` already has a stored Event Record
returns 200 with the previously recorded status and performs no writes at
all: the table is returned unchanged (no session-pointer update, no order,
no new event record). -/
theorem C2_duplicate_event_cached (req : WebhookRequest) (env : WebhookEnv)
    (t : Table) (evId evType : Option String) (d : DataObject)
    (eid etype : String) (existing : Item)
    (hver : req.verify = .ok evId evType d)
    (hmethod : strUpper ((pyStrOpt (some req.method)).getD "POST") = "POST")
    (hbody : req.bodyDecodes = true)
    (hsig : req.hasSignatureHeader = true)
    (hsecret : env.secretConfigured = true)
    (hid : pyStrOpt evId = some eid)
    (htype : pyStrOpt evType = some etype)
    (hdup : getItem t ("EVENT#" ++ eid) "METADATA" = some existing) :
    webhookHandler req env t
      = ({ statusCode := 200,
           status := some ((existing.data.statusAttr).getD "already-processed") }, t) := by
  rw [webhookHandler_ok req env t evId evType d hver hmethod hbody hsig hsecret]
  unfold webhookCore
  simp [hid, htype, hdup]

/-- Fixture: a durably stored Event Record for `evt_1`. -/
def dupFirstEventItem : Item :=
  { pk := "EVENT#evt_1", sk := "METADATA"
    data := .event
      { eventType := "checkout.session.completed", processedAt := "T1"
        sessionId := some "cs_d1", status := "completed", quoteSignature := none
        expiresAt := 7776050
        stripeSummary := { customerEmail := some "x@y.z" }
        signatureVerified := true, orderCreated := true
        orderNumber := some "BC-CSD1" } }

/-- Fixture: a second delivery of the completion event `evt_1`. -/
def dupReq : WebhookRequest :=
  { verify := .ok (some "evt_1") (some "checkout.session.completed")
      { id := some "cs_d1", customerEmail := some "x@y.z" } }

/-- `C2_duplicate_event_cached` on the fixture: the redelivery returns the
cached status and the store is unchanged. -/
theorem C2_duplicate_event_cached_witness :
    webhookHandler dupReq { processedAt := "T2", nowSec := 60 } [dupFirstEventItem]
      = ({ statusCode := 200, status := some "completed" }, [dupFirstEventItem]) := by
  have h := C2_duplicate_event_cached dupReq { processedAt := "T2", nowSec := 60 }
    [dupFirstEventItem] (some "evt_1") (some "checkout.session.completed")
    { id := some "cs_d1", customerEmail := some "x@y.z" }
    "evt_1" "checkout.session.completed" dupFirstEventItem
    rfl (by decide) rfl rfl rfl (by decide) (by decide) (by decide)
  rw [h]
  rfl

/-- **C3 (counterexample).** Three non-2xx responses outside the claim's
terms: a payload that passes signature verification but lacks an event id
gets 400 (the claim promises 2xx for every verified payload); a GET request
gets 405 and a missing webhook secret gets 500, neither of which is a bad
signature, an undecodable body, or a missing signature header. -/
theorem C3_counterexample :
    (webhookHandler { verify := .ok none none {} } {} []).1.statusCode = 400
    ∧ (webhookHandler { method := "GET", verify := .ok (some "e") (some "t") {} }
        {} []).1.statusCode = 405
    ∧ (webhookHandler { verify := .ok (some "e") (some "t") {} }
        { secretConfigured := false } []).1.statusCode = 500 := by
  refine ⟨?_, ?_, ?_⟩ <;> decide

/-- **C3 (amended).** Once the payload passes signature verification *and
carries a nonempty event id and type*, the handler always answers 200 —
whatever the outcomes of the session-status update, the order write and
the event-record write (the three injected failure flags are arbitrary in
`env`). -/
theorem C3_amended_success_shape (req : WebhookRequest) (env : WebhookEnv)
    (t : Table) (evId evType : Option String) (d : DataObject)
    (eid etype : String)
    (hver : req.verify = .ok evId evType d)
    (hmethod : strUpper ((pyStrOpt (some req.method)).getD "POST") = "POST")
    (hbody : req.bodyDecodes = true)
    (hsig : req.hasSignatureHeader = true)
    (hsecret : env.secretConfigured = true)
    (hid : pyStrOpt evId = some eid)
    (htype : pyStrOpt evType = some etype) :
    (webhookHandler req env t).1.statusCode = 200 := by
  rw [webhookHandler_ok req env t evId evType d hver hmethod hbody hsig hsecret]
  unfold webhookCore
  rw [hid]
  show ((match pyStrOpt evType with | none => _ | some etype => _ :
    LambdaResponse × Table)).1.statusCode = 200
  rw [htype]
  cases hdup : getItem t ("EVENT#" ++ eid) "METADATA" with
  | some existing => rfl
  | none => rfl

/-- `C3_amended_success_shape` with every injected storage failure turned
on: the verified completion delivery still gets 200. -/
theorem C3_amended_success_shape_witness :
    (webhookHandler
      { verify := .ok (some "evt_9") (some "checkout.session.completed")
          { id := some "cs_w9", customerEmail := some "w@x.y" } }
      { updateFails := true, orderPutFails := true, recordEventFails := true }
      []).1.statusCode = 200 :=
  C3_amended_success_shape
    { verify := .ok (some "evt_9") (some "checkout.session.completed")
        { id := some "cs_w9", customerEmail := some "w@x.y" } }
    { updateFails := true, orderPutFails := true, recordEventFails := true }
    [] (some "evt_9") (some "checkout.session.completed")
    { id := some "cs_w9", customerEmail := some "w@x.y" }
    "evt_9" "checkout.session.completed"
    rfl (by decide) rfl rfl rfl (by decide) (by decide)

/-! ## Checkout-session creation (C5, C6)
(`babes-website-checkout-create-session/lambda_function.py` and
`shared_commerce/storage.py`)

`put_session_records` issues its two puts through `table.batch_writer()`,
i.e. DynamoDB `BatchWriteItem`.  Batch writes are *not* transactional:
each put succeeds or fails independently (rejected/unprocessed items), and
`batch_writer` surfaces a failure by raising after the successful puts are
already durable.  `BatchOutcome` injects the per-item outcomes; the `Bool`
returned by `putSessionRecords` is "no exception was raised". -/

/-- Per-item outcome of one `BatchWriteItem` call. -/
structure BatchOutcome where
  first : Bool
  second : Bool
  deriving Repr, DecidableEq

/-- `put_session_records` (storage.py lines 49–53) under batch-write
semantics. -/
def putSessionRecords (t : Table) (sessionItem pointerItem : Item)
    (oc : BatchOutcome) : Table × Bool :=
  let t₁ := if oc.first then putItem t sessionItem else t
  let t₂ := if oc.second then putItem t₁ pointerItem else t₁
  (t₂, oc.first && oc.second)

theorem getItem_putItem_self (t : Table) (it : Item) :
    getItem (putItem t it) it.pk it.sk = some it := by
  unfold getItem putItem
  simp [List.find?]

theorem find?_filter_eq {α : Type _} (l : List α) (p q : α → Bool)
    (himp : ∀ a, p a = true → q a = true) :
    (l.filter q).find? p = l.find? p := by
  induction l with
  | nil => rfl
  | cons a l ih =>
    cases hq : q a with
    | false =>
      have hp : p a = false := by
        cases hp : p a with
        | false => rfl
        | true => rw [himp a hp] at hq; cases hq
      rw [List.filter_cons_of_neg (by simp [hq]), List.find?_cons_of_neg _ (by simp [hp]), ih]
    | true =>
      rw [List.filter_cons_of_pos (by simp [hq])]
      cases hp : p a with
      | false => rw [List.find?_cons_of_neg _ (by simp [hp]),
          List.find?_cons_of_neg _ (by simp [hp]), ih]
      | true => rw [List.find?_cons_of_pos _ (by simp [hp]),
          List.find?_cons_of_pos _ (by simp [hp])]

theorem getItem_putItem_ne (t : Table) (it : Item) (pk sk : String)
    (h : ¬(it.pk = pk ∧ it.sk = sk)) :
    getItem (putItem t it) pk sk = getItem t pk sk := by
  unfold getItem putItem
  have hit : (it.pk == pk && it.sk == sk) = false := by
    cases hpk : it.pk == pk with
    | false => rfl
    | true =>
      cases hsk : it.sk == sk with
      | false => rfl
      | true => exact absurd ⟨eq_of_beq hpk, eq_of_beq hsk⟩ h
  rw [List.find?_cons_of_neg _ (by simp [hit])]
  apply find?_filter_eq
  intro a ha
  have hkey : a.pk = pk ∧ a.sk = sk := by
    have := (Bool.and_eq_true _ _).mp ha
    exact ⟨eq_of_beq this.1, eq_of_beq this.2⟩
  have : ¬(a.pk = it.pk ∧ a.sk = it.sk) := by
    intro hh
    exact h ⟨hh.1 ▸ hkey.1, hh.2 ▸ hkey.2⟩
  cases hpk : a.pk == it.pk with
  | false => simp
  | true =>
    cases hsk : a.sk == it.sk with
    | false => simp
    | true => exact absurd ⟨eq_of_beq hpk, eq_of_beq hsk⟩ this

/-- `pointer.get("normalizedHash")`. -/
def ItemData.normalizedHashAttr : ItemData → Option String
  | .quotePointer p => some p.normalizedHash
  | .quoteCache q => some q.normalizedHash
  | _ => none

/-- `pointer.get("expiresAt")`, as the `int(...)` coercion sees it (`none`
models both a missing attribute and an unparsable one, either of which
disables the expiry check). -/
def ItemData.expiresAtAttr : ItemData → Option Int
  | .quotePointer p => some p.expiresAt
  | .quoteCache q => some (Int.ofNat q.expiresAt)
  | .session s => some s.expiresAt
  | .sessionPointer p => some p.expiresAt
  | _ => none

/-- `get_latest_quote_for_hash`: the `CART#hash` partition queried with
`ScanIndexForward=False, Limit=1` — the item with the greatest sort key. -/
def latestQuoteForHash (t : Table) (nhash : String) : Option Item :=
  (List.insertionSort itemSkLe (t.filter fun it => it.pk == "CART#" ++ nhash)).getLast?

/-- The fields of `stripe.checkout.Session.create`'s result the handler
reads. -/
structure StripeCreateSessionResult where
  id : Option String := none
  url : Option String := none
  status : Option String := none
  mode : Option String := none
  paymentStatus : Option String := none
  expiresAt : Option Int := none
  deriving Repr, DecidableEq

/-- The request body fields the checkout handler branches on. -/
structure CheckoutPayload where
  quoteSignature : Option String := none
  checkoutUrlOverride : Option String := none
  deriving Repr, DecidableEq

/-- Environment and external-call outcomes of one checkout invocation.
`lineItems` is the result of `_build_line_items` on the cached quote's
`requestItems` (its float­-cent rounding sits outside the model; only its
emptiness drives control flow).  `stripeCreate = none` models a
`StripeError` from the session-creation call. -/
structure CheckoutEnv where
  bodyParses : Bool := true
  rateLimitOk : Bool := true
  stripeInit : Bool := true
  lineItems : List LineItem := []
  stripeCreate : Option StripeCreateSessionResult := none
  uuidHex : String := ""
  nowSec : Nat := 0
  createdAtIso : String := ""
  sessionTtlMinutes : Nat := 1440
  batch : BatchOutcome := ⟨true, true⟩
  deriving Repr, DecidableEq

/-- Lines 304–506: the checkout path after the quote pointer passed the
expiry check.  An `Except.error ()` result models the uncaught exception
`put_session_records` raises when a batch item fails (line 481 has no
`try`). -/
def checkoutContinue (qsig nhash : String) (payload : CheckoutPayload)
    (env : CheckoutEnv) (t : Table) : Except Unit LambdaResponse × Table :=
  match latestQuoteForHash t nhash with
  | none => (.ok { statusCode := 404, error := some "Quote cache not found" }, t)
  | some _ =>
    if !env.stripeInit then
      (.ok { statusCode := 500,
             error := some "Checkout service is temporarily unavailable" }, t)
    else if env.lineItems.isEmpty then
      (.ok { statusCode := 400,
             error := some "Quote items are missing Stripe pricing details" }, t)
    else
      match env.stripeCreate with
      | none =>
        (.ok { statusCode := 502,
               error := some "Unable to create Stripe checkout session" }, t)
      | some cs =>
        let sessionId := "sess_" ++ env.uuidHex
        let sessionExpiresAt := Int.ofNat (env.nowSec + (max 1 env.sessionTtlMinutes) * 60)
        let clientReturnUrl := (pyStrOpt payload.checkoutUrlOverride).getD
          ("https://thebabesclub.com/checkout?session_id=" ++ sessionId)
        let stripeCheckoutUrl := (pyStrOpt cs.url).getD clientReturnUrl
        let sessionItem : Item :=
          { pk := "QUOTE#" ++ qsig
            sk := "SESSION#" ++ sessionId
            data := .session
              { status := "created", createdAt := env.createdAtIso
                checkoutUrl := clientReturnUrl
                stripeSessionId := cs.id
                stripeCheckoutUrl := some stripeCheckoutUrl
                stripeStatus := cs.status
                expiresAt := sessionExpiresAt } }
        let pointerItem : Item :=
          { pk := "SESSION#" ++ sessionId
            sk := "METADATA"
            data := .sessionPointer
              { quoteSignature := qsig, status := "created"
                createdAt := env.createdAtIso, expiresAt := sessionExpiresAt
                stripeSessionId := cs.id
                stripeCheckoutUrl := some stripeCheckoutUrl
                stripeStatus := cs.status } }
        let written := putSessionRecords t sessionItem pointerItem env.batch
        if written.2 then
          (.ok { statusCode := 200, sessionId := some sessionId,
                 quoteSignature := some qsig,
                 checkoutUrl := some stripeCheckoutUrl }, written.1)
        else (.error (), written.1)

/-- `lambda_handler` of `babes-website-checkout-create-session` (the
quote-resolution gates, then `checkoutContinue`). -/
def checkoutHandler (method : String) (payload : CheckoutPayload)
    (env : CheckoutEnv) (t : Table) : Except Unit LambdaResponse × Table :=
  let m := strUpper ((pyStrOpt (some method)).getD "POST")
  if m = "OPTIONS" then (.ok { statusCode := 200, ok := some true }, t)
  else if m ≠ "POST" then (.ok { statusCode := 405, error := some "Method not allowed" }, t)
  else if !env.bodyParses then
    (.ok { statusCode := 400, error := some "Invalid request" }, t)
  else
    match pyStrOpt payload.quoteSignature with
    | none => (.ok { statusCode := 400, error := some "quoteSignature is required" }, t)
    | some qsig =>
      if !env.rateLimitOk then
        (.ok { statusCode := 429, error := some "Too many requests" }, t)
      else
        match getItem t ("QUOTE#" ++ qsig) "METADATA" with
        | none => (.ok { statusCode := 404, error := some "Quote not found or expired" }, t)
        | some pointer =>
          match pyStrOpt pointer.data.normalizedHashAttr with
          | none =>
            (.ok { statusCode := 500,
                   error := some "Quote metadata missing normalized hash" }, t)
          | some nhash =>
            match pointer.data.expiresAtAttr with
            | some e =>
              if e ≠ 0 ∧ e ≤ Int.ofNat env.nowSec then
                (.ok { statusCode := 410, error := some "Quote has expired" }, t)
              else checkoutContinue qsig nhash payload env t
            | none => checkoutContinue qsig nhash payload env t

/-- Fixture: a checkout session record. -/
def fixSessionItem : Item :=
  { pk := "QUOTE#SIGC5", sk := "SESSION#sess_1"
    data := .session
      { status := "created", createdAt := "T", checkoutUrl := "u"
        stripeSessionId := some "cs_1", stripeCheckoutUrl := some "u"
        stripeStatus := some "open", expiresAt := 100 } }

/-- Fixture: the matching session pointer record. -/
def fixPointerItem : Item :=
  { pk := "SESSION#sess_1", sk := "METADATA"
    data := .sessionPointer
      { quoteSignature := "SIGC5", status := "created", createdAt := "T"
        expiresAt := 100, stripeSessionId := some "cs_1"
        stripeCheckoutUrl := some "u", stripeStatus := some "open" } }

/-- **C5 (counterexample).** `put_session_records` writes through
`BatchWriteItem`, which is not all-or-nothing: with the first put durable
and the second rejected, the operation raises (fails) yet leaves exactly
one of the two records in the store — refuting "after the operation,
either both records exist or neither does". -/
theorem C5_counterexample :
    (putSessionRecords [] fixSessionItem fixPointerItem ⟨true, false⟩).2 = false
    ∧ getItem (putSessionRecords [] fixSessionItem fixPointerItem ⟨true, false⟩).1
        "QUOTE#SIGC5" "SESSION#sess_1" = some fixSessionItem
    ∧ getItem (putSessionRecords [] fixSessionItem fixPointerItem ⟨true, false⟩).1
        "SESSION#sess_1" "METADATA" = none := by
  decide

/-- **C5 (amended).** The two records go out in one *batched* (not
transactional) write: the call succeeds — and with it the handler, which
wraps it in no `try` — exactly when both item writes succeed; each record
is durable exactly when its own item write succeeded, independent of the
other, so a partial state with exactly one record is reachable. -/
theorem C5_amended_batch_write (t : Table) (s p : Item) (oc : BatchOutcome)
    (hne : ¬(p.pk = s.pk ∧ p.sk = s.sk)) :
    ((putSessionRecords t s p oc).2 = true ↔ oc.first = true ∧ oc.second = true)
    ∧ (oc.first = true →
        getItem (putSessionRecords t s p oc).1 s.pk s.sk = some s)
    ∧ (oc.second = true →
        getItem (putSessionRecords t s p oc).1 p.pk p.sk = some p)
    ∧ (oc.first = false →
        getItem (putSessionRecords t s p oc).1 s.pk s.sk = getItem t s.pk s.sk)
    ∧ (oc.second = false →
        getItem (putSessionRecords t s p oc).1 p.pk p.sk = getItem t p.pk p.sk) := by
  have hne' : ¬(s.pk = p.pk ∧ s.sk = p.sk) := fun hh => hne ⟨hh.1.symm, hh.2.symm⟩
  obtain ⟨f, g⟩ := oc
  unfold putSessionRecords
  cases f <;> cases g <;>
    simp [getItem_putItem_self, getItem_putItem_ne _ _ _ _ hne,
      getItem_putItem_ne _ _ _ _ hne']

/-- `C5_amended_batch_write` on the fixture records, all four outcomes. -/
theorem C5_amended_batch_write_witness :
    ((putSessionRecords [] fixSessionItem fixPointerItem ⟨true, true⟩).2 = true
      ↔ (true = true ∧ true = true))
    ∧ getItem (putSessionRecords [] fixSessionItem fixPointerItem ⟨true, true⟩).1
        fixSessionItem.pk fixSessionItem.sk = some fixSessionItem
    ∧ getItem (putSessionRecords [] fixSessionItem fixPointerItem ⟨true, true⟩).1
        fixPointerItem.pk fixPointerItem.sk = some fixPointerItem := by
  have h := C5_amended_batch_write [] fixSessionItem fixPointerItem ⟨true, true⟩
    (by decide)
  exact ⟨h.1, h.2.1 rfl, h.2.2.1 rfl⟩

instance : DecidableEq (Except Unit LambdaResponse) := fun a b =>
  match a, b with
  | .ok x, .ok y =>
    if h : x = y then isTrue (by rw [h]) else isFalse (by intro hh; cases hh; exact h rfl)
  | .error x, .error y =>
    isTrue (by cases x; cases y; rfl)
  | .ok _, .error _ => isFalse (by intro hh; cases hh)
  | .error _, .ok _ => isFalse (by intro hh; cases hh)

/-- **C6 (counterexample).** Creating a checkout session for a quote whose
pointer has `expiresAt = 5` at `now = 10` answers **410** ("Quote has
expired"), not the claimed 404 — the state is otherwise untouched. -/
theorem C6_counterexample :
    (checkoutHandler "POST" { quoteSignature := some "SIG1" } { nowSec := 10 }
        [cartQuotePointerItem "SIG1" "H1" "T0" 5]).1
      = .ok { statusCode := 410, error := some "Quote has expired" }
    ∧ (checkoutHandler "POST" { quoteSignature := some "SIG1" } { nowSec := 10 }
        [cartQuotePointerItem "SIG1" "H1" "T0" 5]).2
      = [cartQuotePointerItem "SIG1" "H1" "T0" 5] := by
  decide

/-- **C6 (amended).** A checkout-session creation whose resolved quote
pointer carries a numeric, nonzero `expiresAt` at or before the current
time returns **410 Gone** ("Quote has expired") — 404 is reserved for an
absent pointer — and writes nothing: the table is returned unchanged. -/
theorem C6_amended_expired_quote (method : String) (payload : CheckoutPayload)
    (env : CheckoutEnv) (t : Table) (qsig nhash : String) (pointer : Item) (e : Int)
    (hmethod : strUpper ((pyStrOpt (some method)).getD "POST") = "POST")
    (hparse : env.bodyParses = true)
    (hqs : pyStrOpt payload.quoteSignature = some qsig)
    (hrate : env.rateLimitOk = true)
    (hptr : getItem t ("QUOTE#" ++ qsig) "METADATA" = some pointer)
    (hhash : pyStrOpt pointer.data.normalizedHashAttr = some nhash)
    (hexp : pointer.data.expiresAtAttr = some e)
    (hez : e ≠ 0) (hle : e ≤ Int.ofNat env.nowSec) :
    checkoutHandler method payload env t
      = (.ok { statusCode := 410, error := some "Quote has expired" }, t) := by
  unfold checkoutHandler
  rw [hmethod]
  simp [hparse, hqs, hrate, hptr, hhash, hexp, hez, hle]
  intro hlt
  exact absurd hle (not_le.mpr hlt)

/-- `C6_amended_expired_quote` at the concrete expired pointer. -/
theorem C6_amended_expired_quote_witness :
    checkoutHandler "POST" { quoteSignature := some "SIG2" } { nowSec := 10 }
        [cartQuotePointerItem "SIG2" "H2" "T0" 7]
      = (.ok { statusCode := 410, error := some "Quote has expired" },
         [cartQuotePointerItem "SIG2" "H2" "T0" 7]) :=
  C6_amended_expired_quote "POST" { quoteSignature := some "SIG2" }
    { nowSec := 10 } [cartQuotePointerItem "SIG2" "H2" "T0" 7]
    "SIG2" "H2" (cartQuotePointerItem "SIG2" "H2" "T0" 7) 7
    (by decide) rfl (by decide) rfl (by decide) (by decide) (by decide)
    (by decide) (by decide)

end BabesCommerce
